import Mathlib

/-!
# SlideCraft (`agent.js`): a shallow embedding and its verified properties

The page script `src/agent.js` is embedded as pure functions over an explicit
page state.  JavaScript strings are sequences of UTF-16 code units, values
returned by `JSON.parse` are a tree type, and everything the platform decides
(network, JSON decoding, the presentation library, the markup) is a field of
`World`.
-/

namespace SlideCraft

/-! ## JavaScript strings -/

/-- A JavaScript string: its sequence of UTF-16 code units. -/
abbrev JSString := List Nat

/-- UTF-16 encoding of one Unicode scalar value. -/
def utf16 (c : Char) : List Nat :=
  if c.toNat < 65536 then [c.toNat]
  else [55296 + (c.toNat - 65536) / 1024, 56320 + (c.toNat - 65536) % 1024]

/-- The JavaScript string written by a literal. -/
def js (s : String) : JSString := (s.toList.map utf16).flatten

/-- Code unit of `[`. -/
def lbracket : Nat := 91

/-- Code unit of `]`. -/
def rbracket : Nat := 93

/-- Scan for the first occurrence of the code unit `c`; `i` is the index of the
head of the list.  `-1` when there is none. -/
def indexOfFrom (c : Nat) : JSString → Nat → Int
  | [], _ => -1
  | x :: xs, i => if x = c then (i : Int) else indexOfFrom c xs (i + 1)

/-- `s.indexOf(c)` for a search string of exactly one code unit `c`. -/
def indexOf (s : JSString) (c : Nat) : Int := indexOfFrom c s 0

/-- Scan for the last occurrence of `c`; `acc` is the last index seen so far. -/
def lastIndexOfFrom (c : Nat) : JSString → Nat → Int → Int
  | [], _, acc => acc
  | x :: xs, i, acc => lastIndexOfFrom c xs (i + 1) (if x = c then (i : Int) else acc)

/-- `s.lastIndexOf(c)` for a search string of exactly one code unit `c`. -/
def lastIndexOf (s : JSString) (c : Nat) : Int := lastIndexOfFrom c s 0 (-1)

/-- `s.substring(a, b)`: both arguments are clamped to `[0, s.length]` and
swapped when the first exceeds the second. -/
def substring (s : JSString) (a b : Int) : JSString :=
  let len : Int := s.length
  let finalStart := min (max a 0) len
  let finalEnd := min (max b 0) len
  let lo := min finalStart finalEnd
  let hi := max finalStart finalEnd
  (s.drop lo.toNat).take (hi.toNat - lo.toNat)

/-- `s.endsWith(t)`. -/
def endsWith (s t : JSString) : Bool := t.isSuffixOf s

/-- Decimal digits of `n`, least significant first; `fuel` bounds the number of
digits. -/
def digitsRev : Nat → Nat → List Nat
  | 0, _ => []
  | fuel + 1, n => (48 + n % 10) :: (if n / 10 = 0 then [] else digitsRev fuel (n / 10))

/-- String conversion of a non-negative integer Number, as a template literal
performs it. -/
def numToString (n : Nat) : JSString := (digitsRev (n + 1) n).reverse

/-! ## JavaScript values -/

/-- A JavaScript Number: a finite value, or one of the three non-finite ones. -/
inductive JSNumber
  | finite (q : ℚ)
  | nan
  | posInf
  | negInf

/-- The values `JSON.parse` can return, plus `undefined`. -/
inductive JSVal
  | undefined
  | null
  | bool (b : Bool)
  | num (n : JSNumber)
  | str (s : JSString)
  | arr (xs : List JSVal)
  | obj (props : List (JSString × JSVal))

/-- A property key: a name (`v.name`) or an array index (`v[i]`). -/
inductive Key
  | name (s : JSString)
  | index (i : Nat)

/-- The string a key stands for. -/
def Key.toJSString : Key → JSString
  | .name s => s
  | .index i => numToString i

/-- Property read `v[k]`.  `none` is the `TypeError` raised on `undefined` and
`null`.  Own data properties only: objects by key, arrays and strings by index
and `length`; every other read gives `undefined`.  The names the script reads
(`choices`, `message`, `content`, `text`, `candidates`, `parts`, `title`) are
neither indices nor members of a built-in prototype. -/
def JSVal.get : JSVal → Key → Option JSVal
  | .undefined, _ => none
  | .null, _ => none
  | .obj props, k => some ((props.lookup k.toJSString).getD .undefined)
  | .arr xs, .index i => some (xs.getD i .undefined)
  | .arr xs, .name s =>
      some (if s = js "length" then .num (.finite xs.length) else .undefined)
  | .str s, .index i =>
      some (match s.get? i with
            | some u => .str [u]
            | none => .undefined)
  | .str s, .name n =>
      some (if n = js "length" then .num (.finite s.length) else .undefined)
  | .bool _, _ => some .undefined
  | .num _, _ => some .undefined

/-- A chain of property reads `v[k₁][k₂]…`. -/
def JSVal.path : JSVal → List Key → Option JSVal
  | v, [] => some v
  | v, k :: ks => (v.get k).bind (fun u => u.path ks)

/-- Truthiness, as `||` tests it. -/
def JSVal.truthy : JSVal → Bool
  | .undefined => false
  | .null => false
  | .bool b => b
  | .num (.finite q) => decide (q ≠ 0)
  | .num .nan => false
  | .num _ => true
  | .str s => !s.isEmpty
  | .arr _ => true
  | .obj _ => true

/-- The operator `a || b`. -/
def JSVal.or (a b : JSVal) : JSVal := if a.truthy then a else b

/-! ## Structuring client: response extraction -/

/-- Provider tags. -/
def openai : JSString := js "openai"
def anthropic : JSString := js "anthropic"
def google : JSString := js "google"

/-- Where each provider's envelope holds the generated text (`agent.js` 61-63). -/
def openaiPath : List Key :=
  [.name (js "choices"), .index 0, .name (js "message"), .name (js "content")]

def anthropicPath : List Key := [.name (js "content"), .index 0, .name (js "text")]

def googlePath : List Key :=
  [.name (js "candidates"), .index 0, .name (js "content"), .name (js "parts"), .index 0,
   .name (js "text")]

/-- Message of the error `parseAPIResponse` throws. -/
def parseErrorMessage : JSString :=
  js "Could not parse AI response. It might be an invalid format."

/-- The `try` block of `parseAPIResponse` (`agent.js` 59-68).  `none` is any
exception: a failed property read, the `default` branch, or a method call on a
value that is not a string (only strings have `substring`). -/
def parseAPIResponseTry (data : JSVal) (provider : JSString) : Option JSString :=
  (if provider = openai then data.path openaiPath
   else if provider = anthropic then data.path anthropicPath
   else if provider = google then data.path googlePath
   else none).bind fun jsonString =>
    match jsonString with
    | .str s =>
        let startIndex := indexOf s lbracket
        let endIndex := lastIndexOf s rbracket
        some (substring s startIndex (endIndex + 1))
    | _ => none

/-- `parseAPIResponse(data, provider)` (`agent.js` 57-72): the result string,
or the message of the error thrown by the `catch` block. -/
def parseAPIResponse (data : JSVal) (provider : JSString) : Except JSString JSString :=
  match parseAPIResponseTry data provider with
  | some r => .ok r
  | none => .error parseErrorMessage

/-- An OpenAI envelope carrying `t`. -/
def openaiEnvelope (t : JSString) : JSVal :=
  .obj [(js "choices", .arr [.obj [(js "message", .obj [(js "content", .str t)])]])]

/-- An Anthropic envelope carrying `t`. -/
def anthropicEnvelope (t : JSString) : JSVal :=
  .obj [(js "content", .arr [.obj [(js "text", .str t)]])]

/-- A Google envelope carrying `t`. -/
def googleEnvelope (t : JSString) : JSVal :=
  .obj [(js "candidates",
    .arr [.obj [(js "content", .obj [(js "parts", .arr [.obj [(js "text", .str t)]])])]])]


/-! ## Page state -/

/-- A file handle; the script reads nothing but its name. -/
structure File where
  name : JSString

/-- The script's `state` object (`agent.js` 19-22). -/
structure SessionState where
  isProcessing : Bool
  uploadedFile : Option File

/-- One child of `#status-display`, as `renderStatus` creates it. -/
structure StatusItem where
  className : JSString
  innerHTML : JSString

/-- Functions of the script that get bound as event handlers of created elements. -/
inductive Handler
  | resetApp

/-- One child of `#result-display`, as `renderResult` creates it; a field the
script does not assign is empty. -/
structure Element where
  tagName : JSString
  id : JSString
  className : JSString := []
  textContent : JSString := []
  innerHTML : JSString := []
  styleColor : JSString := []
  onclick : Option Handler := none

/-- The argument of `fetch`; `body` is the value handed to `JSON.stringify`. -/
structure Request where
  url : JSString
  method : JSString
  headers : List (JSString × JSString)
  body : JSVal

/-- What the script reads of a `fetch` response. -/
structure Response where
  ok : Bool
  status : Nat
  body : JSString

/-- One `addText(text, options)` call on a slide. -/
structure TextBlock where
  text : JSVal
  options : JSVal

/-- A slide of the presentation library: its text blocks in call order. -/
structure Slide where
  blocks : List TextBlock

/-- A `PptxGenJS` document: the layout assigned and the slides added, in order. -/
structure Deck where
  layout : JSString
  slides : List Slide

/-- Calls that leave the page, in the order they are made. -/
inductive Effect
  | alert (message : JSString)
  | fetch (request : Request)
  | newPptx
  | writeFile (deck : Deck) (fileName : JSString)
  | consoleError (label message : JSString)

/-- The submit event; the script only calls `preventDefault` on it. -/
structure Event where
  defaultPrevented : Bool

/-- Everything of the page the script reads or writes: the session state, the
properties of the elements of `agent.js` 4-17, the preference store, and the
log of outward calls. -/
structure Page where
  state : SessionState
  userText : JSString
  fileInputValue : JSString
  fileNameText : JSString
  fileInfoDisplay : JSString
  fileDropZoneDisplay : JSString
  llmProvider : JSString
  apiKey : JSString
  generateBtnDisabled : Bool
  /-- Text of the `span` inside the generate button; `none` when the markup has none. -/
  btnText : Option JSString
  resultAreaDisplay : JSString
  statusDisplay : List StatusItem
  resultDisplay : List Element
  resultDisplayDisplay : JSString
  localStorage : List (JSString × JSString)
  effects : List Effect

/-- What the platform decides: the network, JSON decoding, the save of the
presentation library, the text of an engine-raised `TypeError`, and the markup
(validity constraints and default values of the form controls, options of the
provider selector). -/
structure World where
  /-- Outcome of `fetch`: a response, or the message of the rejection. -/
  fetch : Request → Except JSString Response
  /-- Outcome of `JSON.parse` and `response.json()`: a value, or the message of the `SyntaxError`. -/
  jsonParse : JSString → Except JSString JSVal
  /-- Outcome of `pptx.writeFile`: done, or the message of the rejection. -/
  writeFile : Deck → JSString → Except JSString Unit
  typeErrorMessage : JSString
  /-- Result of `form.checkValidity()` on the current page. -/
  checkValidity : Page → Bool
  defaultUserText : JSString
  defaultProvider : JSString
  defaultApiKey : JSString
  /-- Values of the `option` elements of the provider `select`, in document order. -/
  providerOptions : List JSString

/-! ## Structuring client: the request -/

/-- The instruction sent to the model (`agent.js` 27). -/
def prompt (text : JSString) : JSString :=
  js "Analyze the following text and structure it into a JSON array of slides. Each object must have a 'title' (string) and 'content' (string, formatted with '\\n- ' for bullet points). Output only the raw JSON array. TEXT: \"\"\""
    ++ text ++ js "\"\"\""

/-- The `messages` array (`agent.js` 28). -/
def messages (text : JSString) : JSVal :=
  .arr [.obj [(js "role", .str (js "user")), (js "content", .str (prompt text))]]

/-- Message of the error for an unknown provider tag (`agent.js` 47). -/
def unsupportedProviderMessage (provider : JSString) : JSString :=
  js "Unsupported provider: " ++ provider

/-- The `switch` of `callLLM` (`agent.js` 27-48): the request handed to `fetch`,
or the message of the error thrown by the `default` branch. -/
def callLLMRequest (text provider key : JSString) : Except JSString Request :=
  if provider = openai then
    .ok { url := js "https://api.openai.com/v1/chat/completions"
          method := js "POST"
          headers := [(js "Content-Type", js "application/json"),
                      (js "Authorization", js "Bearer " ++ key)]
          body := .obj [(js "model", .str (js "gpt-3.5-turbo")), (js "messages", messages text),
                        (js "temperature", .num (.finite (1 / 2)))] }
  else if provider = anthropic then
    .ok { url := js "https://api.anthropic.com/v1/messages"
          method := js "POST"
          headers := [(js "Content-Type", js "application/json"), (js "x-api-key", key),
                      (js "anthropic-version", js "2023-06-01")]
          body := .obj [(js "model", .str (js "claude-3-haiku-20240307")),
                        (js "max_tokens", .num (.finite 4096)), (js "messages", messages text),
                        (js "temperature", .num (.finite (1 / 2)))] }
  else if provider = google then
    .ok { url := js "https://generativelanguage.googleapis.com/v1beta/models/gemini-pro:generateContent?key="
                   ++ key
          method := js "POST"
          headers := [(js "Content-Type", js "application/json")]
          body := .obj [(js "contents",
                    .arr [.obj [(js "parts", .arr [.obj [(js "text", .str (prompt text))]])]])] }
  else .error (unsupportedProviderMessage provider)

/-- Message of the error for an unsuccessful status (`agent.js` 52). -/
def apiErrorMessage (status : Nat) (errText : JSString) : JSString :=
  js "API Error (" ++ numToString status ++ js "): " ++ errText

/-- The part of `callLLM` after `fetch` settles (`agent.js` 49-54): the decoded
body, or the message of the error thrown. -/
def callLLMResponse (w : World) (fetched : Except JSString Response) : Except JSString JSVal :=
  match fetched with
  | .error m => .error m
  | .ok response =>
      if !response.ok then .error (apiErrorMessage response.status response.body)
      else w.jsonParse response.body

/-- `callLLM(text, provider, key)` (`agent.js` 26-55). -/
def callLLM (w : World) (text provider key : JSString) : Except JSString JSVal :=
  match callLLMRequest text provider key with
  | .error m => .error m
  | .ok request => callLLMResponse w (w.fetch request)

/-! ## Deck builder -/

/-- Options of the title block (`agent.js` 80). -/
def titleOptions : JSVal :=
  .obj [(js "x", .num (.finite (1 / 2))), (js "y", .num (.finite (1 / 4))),
        (js "w", .str (js "90%")), (js "h", .num (.finite 1)),
        (js "fontSize", .num (.finite 32)), (js "bold", .bool true),
        (js "color", .str (js "363636"))]

/-- Options of the body block (`agent.js` 81). -/
def bodyOptions : JSVal :=
  .obj [(js "x", .num (.finite (1 / 2))), (js "y", .num (.finite (3 / 2))),
        (js "w", .str (js "90%")), (js "h", .num (.finite (15 / 4))),
        (js "fontSize", .num (.finite 18)), (js "color", .str (js "363636")),
        (js "bullet", .bool true)]

/-- The callback of `forEach` (`agent.js` 79-81): the slide for one element, or
`none` when reading `title` or `content` raises a `TypeError`. -/
def slideOf (slideContent : JSVal) : Option Slide :=
  (slideContent.get (.name (js "title"))).bind fun title =>
  (slideContent.get (.name (js "content"))).bind fun content =>
    some { blocks := [{ text := title.or (.str (js "Untitled Slide")), options := titleOptions },
                      { text := content.or (.str (js "")), options := bodyOptions }] }

/-- The `forEach` loop (`agent.js` 78-82) over the elements still to visit. -/
def addSlides : List JSVal → Deck → Option Deck
  | [], pptx => some pptx
  | slideContent :: rest, pptx =>
      (slideOf slideContent).bind fun slide =>
        addSlides rest { pptx with slides := pptx.slides ++ [slide] }

/-- File name of the save (`agent.js` 84). -/
def deckFileName : JSString := js "SlideCraft_Presentation.pptx"

/-- The part of `generatePresentation` before the save is awaited
(`agent.js` 75-84): the deck whose save is requested, or the message of the
`TypeError` raised on the way. -/
def generatePresentationBuild (w : World) (slidesData : JSVal) (p : Page) :
    Page × Except JSString Deck :=
  let p1 : Page := { p with effects := p.effects ++ [.newPptx] }
  match slidesData with
  | .arr xs =>
      match addSlides xs { layout := js "LAYOUT_WIDE", slides := [] } with
      | some pptx => ({ p1 with effects := p1.effects ++ [.writeFile pptx deckFileName] }, .ok pptx)
      | none => (p1, .error w.typeErrorMessage)
  | _ => (p1, .error w.typeErrorMessage)

/-- `generatePresentation(slidesData)` (`agent.js` 74-85). -/
def generatePresentation (w : World) (slidesData : JSVal) (p : Page) :
    Page × Except JSString Unit :=
  match generatePresentationBuild w slidesData p with
  | (p1, .error m) => (p1, .error m)
  | (p1, .ok pptx) => (p1, w.writeFile pptx deckFileName)

/-! ## UI update functions -/

/-- `updateUI()` (`agent.js` 89-98). -/
def updateUI (w : World) (p : Page) : Page :=
  { p with
    generateBtnDisabled := !w.checkValidity p || p.state.uploadedFile.isNone || p.state.isProcessing
    btnText := p.btnText.map fun _ =>
      if p.state.isProcessing then js "Generating..." else js "Generate Presentation" }

/-- The icon table of `renderStatus` (`agent.js` 101-105); a missing key reads
as `undefined`. -/
def iconClass (type : JSString) : JSString :=
  if type = js "pending" then js "fas fa-spinner"
  else if type = js "success" then js "fas fa-check-circle"
  else if type = js "error" then js "fas fa-exclamation-triangle"
  else js "undefined"

/-- The element `renderStatus` creates (`agent.js` 107-109). -/
def statusItem (message type : JSString) : StatusItem :=
  { className := js "status-item " ++ type
    innerHTML := js "<i class=\"icon " ++ iconClass type ++ js "\"></i><span>" ++ message
      ++ js "</span>" }

/-- `renderStatus(message, type)` (`agent.js` 100-111). -/
def renderStatus (message type : JSString) (p : Page) : Page :=
  { p with statusDisplay := p.statusDisplay ++ [statusItem message type] }

/-- The summary paragraph of `renderResult` (`agent.js` 116-118 and 130-133). -/
def summaryElement (summary : JSString) (isSuccess : Bool) : Element :=
  if isSuccess then
    { tagName := js "p", id := js "result-summary", textContent := summary }
  else
    { tagName := js "p", id := js "result-summary", textContent := summary,
      styleColor := js "var(--error-color)" }

/-- The start-over button of `renderResult` (`agent.js` 137-141). -/
def startOverBtn : Element :=
  { tagName := js "button", id := js "start-over-btn", className := js "btn",
    innerHTML := js "<i class=\"fas fa-redo\"></i> <span>Start Over</span>",
    onclick := some .resetApp }

/-- `renderResult(summary, isSuccess)` (`agent.js` 113-145). -/
def renderResult (summary : JSString) (isSuccess : Bool) (p : Page) : Page :=
  { p with
    resultDisplay := [summaryElement summary isSuccess, startOverBtn]
    resultDisplayDisplay := js "block" }

/-- `localStorage.getItem(key) || fallback`. -/
def storedOr (store : List (JSString × JSString)) (key fallback : JSString) : JSString :=
  match store.lookup key with
  | some v => if v.isEmpty then fallback else v
  | none => fallback

/-- `localStorage.setItem(key, value)`. -/
def setItem (store : List (JSString × JSString)) (key value : JSString) :
    List (JSString × JSString) :=
  (key, value) :: store.filter fun kv => kv.1 != key

/-- What a single-line `input` reads back after `input.value = v`: the value
with its line breaks stripped.  `#api-key` is such a control, its type being
switched between `password` and `text` (`agent.js` 247). -/
def inputValue (v : JSString) : JSString := v.filter fun u => u != 10 && u != 13

/-- What a `select` reads back after `select.value = v`: `v` when one of its
options has that value, the empty string (nothing selected) otherwise. -/
def selectValue (options : List JSString) (v : JSString) : JSString :=
  if options.contains v then v else js ""

/-- `loadSettings()` (`agent.js` 219-223). -/
def loadSettings (w : World) (p : Page) : Page :=
  updateUI w { p with
    apiKey := inputValue (storedOr p.localStorage (js "slidecraft_api_key") (js ""))
    llmProvider :=
      selectValue w.providerOptions (storedOr p.localStorage (js "slidecraft_provider") (js "openai")) }

/-- `saveSettings()` (`agent.js` 214-217). -/
def saveSettings (p : Page) : Page :=
  { p with
    localStorage := setItem (setItem p.localStorage (js "slidecraft_api_key") p.apiKey)
      (js "slidecraft_provider") p.llmProvider }

/-- `form.reset()`: every control of the form goes back to its markup default;
a file input has none. -/
def formReset (w : World) (p : Page) : Page :=
  { p with
    userText := w.defaultUserText
    fileInputValue := js ""
    llmProvider := w.defaultProvider
    apiKey := w.defaultApiKey }

/-- `resetApp()` (`agent.js` 147-158). -/
def resetApp (w : World) (p : Page) : Page :=
  let p1 := formReset w p
  let p2 : Page := { p1 with
    state := { isProcessing := false, uploadedFile := none }
    fileInfoDisplay := js "none"
    fileDropZoneDisplay := js "block"
    resultAreaDisplay := js "none"
    statusDisplay := []
    resultDisplay := [] }
  updateUI w (loadSettings w p2)

/-! ## Event handlers -/

/-- Text of the alert of `handleFile` (`agent.js` 171). -/
def invalidFileMessage : JSString :=
  js "Invalid file type. Please upload a .pptx or .potx file."

/-- `handleFile(file)` (`agent.js` 162-174). -/
def handleFile (w : World) (file : Option File) (p : Page) : Page :=
  match file with
  | some f =>
      if endsWith f.name (js ".pptx") || endsWith f.name (js ".potx") then
        updateUI w { p with
          state := { p.state with uploadedFile := some f }
          fileNameText := f.name
          fileDropZoneDisplay := js "none"
          fileInfoDisplay := js "flex" }
      else
        updateUI w { p with
          fileInputValue := js ""
          effects := p.effects ++ [.alert invalidFileMessage] }
  | none =>
      updateUI w { p with
        fileInputValue := js ""
        effects := p.effects ++ [.alert invalidFileMessage] }

/-- The click handler of the remove-file button (`agent.js` 228-234). -/
def removeFile (w : World) (p : Page) : Page :=
  updateUI w { p with
    state := { p.state with uploadedFile := none }
    fileInputValue := js ""
    fileInfoDisplay := js "none"
    fileDropZoneDisplay := js "block" }

/-- Message of the error for an empty or non-array decoded value (`agent.js` 193). -/
def noSlideDataMessage : JSString := js "AI returned no slide data."

/-- Lines 180-184 of `handleSubmit`, run once the guard has let the call pass. -/
def submitStart (w : World) (p : Page) : Page :=
  updateUI w { p with
    state := { p.state with isProcessing := true }
    resultAreaDisplay := js "block"
    resultDisplayDisplay := js "none"
    statusDisplay := [] }

/-- The `catch` block of `handleSubmit` (`agent.js` 203-207). -/
def submitCatch (message : JSString) (p : Page) : Page :=
  let p1 : Page :=
    { p with effects := p.effects ++ [.consoleError (js "Generation Failed:") message] }
  let p2 : Page := { p1 with statusDisplay := [] }
  let p3 := renderStatus (js "An error occurred during generation.") (js "error") p2
  renderResult (js "Error: " ++ message) false p3

/-- The `finally` block of `handleSubmit` (`agent.js` 208-211). -/
def submitFinally (w : World) (p : Page) : Page :=
  updateUI w { p with state := { p.state with isProcessing := false } }

/-- Start of the `try` block up to the call of `fetch` (`agent.js` 187-188 with
27-49): the request dispatched, or the message of the error thrown. -/
def submitDispatch (p : Page) : Page × Except JSString Request :=
  let p1 := renderStatus (js "Calling AI to structure content...") (js "pending") p
  match callLLMRequest p1.userText p1.llmProvider p1.apiKey with
  | .error m => (p1, .error m)
  | .ok request => ({ p1 with effects := p1.effects ++ [.fetch request] }, .ok request)

/-- The `try` block from the moment `fetch` settles up to the call of
`writeFile` (`agent.js` 49-54, 190-196 with 75-84): the number of slides and
the deck whose save is requested, or the message of the error thrown. -/
def submitParse (w : World) (fetched : Except JSString Response) (p : Page) :
    Page × Except JSString (Nat × Deck) :=
  match callLLMResponse w fetched with
  | .error m => (p, .error m)
  | .ok apiResponse =>
      let p1 := renderStatus (js "Parsing AI response...") (js "pending") p
      match parseAPIResponse apiResponse p1.llmProvider with
      | .error m => (p1, .error m)
      | .ok jsonString =>
          match w.jsonParse jsonString with
          | .error m => (p1, .error m)
          | .ok slidesData =>
              match slidesData with
              | .arr xs =>
                  if xs.length = 0 then (p1, .error noSlideDataMessage)
                  else
                    let p2 := renderStatus
                      (js "Building " ++ numToString xs.length ++ js " slides...") (js "pending") p1
                    match generatePresentationBuild w (.arr xs) p2 with
                    | (p3, .error m) => (p3, .error m)
                    | (p3, .ok pptx) => (p3, .ok (xs.length, pptx))
              | _ => (p1, .error noSlideDataMessage)

/-- The `try` block from the moment the save settles (`agent.js` 196-201). -/
def submitSaved (n : Nat) (saved : Except JSString Unit) (p : Page) : Page × Except JSString Unit :=
  match saved with
  | .error m => (p, .error m)
  | .ok _ =>
      let p1 : Page := { p with statusDisplay := [] }
      let p2 := renderStatus (js "Presentation Generated Successfully!") (js "success") p1
      (renderResult (js "Your presentation with " ++ numToString n ++ js " slides is ready.")
        true p2, .ok ())

/-- The `catch` and `finally` blocks applied to the outcome of the `try` block. -/
def submitEnd (w : World) (outcome : Page × Except JSString Unit) : Page :=
  match outcome with
  | (p, .error m) => submitFinally w (submitCatch m p)
  | (p, .ok _) => submitFinally w p

/-- The `try` block of `handleSubmit` (`agent.js` 187-201) run without
interruption, each awaited call settling as the world decides. -/
def submitTry (w : World) (p : Page) : Page × Except JSString Unit :=
  match submitDispatch p with
  | (p1, .error m) => (p1, .error m)
  | (p1, .ok request) =>
      match submitParse w (w.fetch request) p1 with
      | (p2, .error m) => (p2, .error m)
      | (p2, .ok (n, pptx)) => submitSaved n (w.writeFile pptx deckFileName) p2

/-- `handleSubmit(e)` (`agent.js` 176-212), run to completion. -/
def handleSubmit (w : World) (e : Event) (p : Page) : Event × Page :=
  let e1 : Event := { e with defaultPrevented := true }
  if p.state.isProcessing then (e1, p)
  else (e1, submitEnd w (submitTry w (submitStart w p)))

/-! ## The page as an event-driven system

`handleSubmit` is an `async` function: it suspends at the network call and at
the save, and other handlers may run in between.  A system state is the page
together with the suspended runs of `handleSubmit`. -/

/-- A suspended run of `handleSubmit`: awaiting `callLLM`, or awaiting
`generatePresentation` with the number of slides it will report. -/
inductive Pending
  | llm (request : Request)
  | save (n : Nat) (pptx : Deck)

/-- The page and the runs of `handleSubmit` in flight. -/
structure Sys where
  page : Page
  pending : List Pending

/-- What can happen to the page: a user action reaching one of the listeners of
`agent.js` 226-249, or an awaited call of the `i`-th run in flight settling.
The drag-hover listeners and the visibility toggle write only a class list and the
input type, which no function of the script reads; they have no action here. -/
inductive Action
  | submit
  | fetchSettled (i : Nat) (fetched : Except JSString Response)
  | saveSettled (i : Nat) (saved : Except JSString Unit)
  | fileChosen (file : Option File)
  | fileRemoved
  | textInput (value : JSString)
  | keyInput (value : JSString)
  | providerChange (value : JSString)
  | startOver

/-- The start-over button can be clicked: it is in the result display and
neither the display nor the result area around it is hidden. -/
def startOverClickable (p : Page) : Bool :=
  p.resultAreaDisplay != js "none" && p.resultDisplayDisplay != js "none" &&
    p.resultDisplay.any fun el =>
      match el.onclick with
      | some .resetApp => true
      | none => false

/-- The top-level handler (`agent.js` 1, 19-22, 251) applied to the page as the
markup gives it. -/
def pageLoad (w : World) (markup : Page) : Sys :=
  { page := loadSettings w { markup with state := { isProcessing := false, uploadedFile := none } }
    pending := [] }

/-- One action.  An action that cannot happen in the state (no such run in
flight, button not clickable, no such option to choose) leaves it as it is. -/
def step (w : World) (s : Sys) : Action → Sys
  | .submit =>
      if s.page.state.isProcessing then s
      else
        match submitDispatch (submitStart w s.page) with
        | (p, .error m) => { page := submitEnd w (p, .error m), pending := s.pending }
        | (p, .ok request) => { page := p, pending := s.pending ++ [.llm request] }
  | .fetchSettled i fetched =>
      match s.pending.get? i with
      | some (.llm _) =>
          match submitParse w fetched s.page with
          | (p, .error m) => { page := submitEnd w (p, .error m), pending := s.pending.eraseIdx i }
          | (p, .ok (n, pptx)) => { page := p, pending := s.pending.set i (.save n pptx) }
      | _ => s
  | .saveSettled i saved =>
      match s.pending.get? i with
      | some (.save n _) =>
          { page := submitEnd w (submitSaved n saved s.page), pending := s.pending.eraseIdx i }
      | _ => s
  | .fileChosen file => { s with page := handleFile w file s.page }
  | .fileRemoved => { s with page := removeFile w s.page }
  | .textInput value => { s with page := updateUI w { s.page with userText := value } }
  | .keyInput value =>
      { s with page := updateUI w (saveSettings { s.page with apiKey := inputValue value }) }
  | .providerChange value =>
      if w.providerOptions.contains value then
        { s with page := saveSettings { s.page with llmProvider := value } }
      else s
  | .startOver => if startOverClickable s.page then { s with page := resetApp w s.page } else s

/-- The state after a sequence of actions. -/
def run (w : World) (s : Sys) (actions : List Action) : Sys := actions.foldl (step w) s

/-! ## Specification-side definitions -/

/-- The provider tags with the path of the generated text in each envelope. -/
def providerPaths : List (JSString × List Key) :=
  [(openai, openaiPath), (anthropic, anthropicPath), (google, googlePath)]

/-- The decoder turns a text into an array only when the text contains `[`, as
every JSON array literal does. -/
def ArraysNeedBracket (w : World) : Prop :=
  ∀ s xs, w.jsonParse s = .ok (.arr xs) → lbracket ∈ s

/-- A Slide Record `{ title, content }` as a decoded value: an object whose
`title` and `content`, when present, are strings. -/
def IsSlideRecord (v : JSVal) (title content : Option JSString) : Prop :=
  ∃ props, v = .obj props ∧ props.lookup (js "title") = title.map JSVal.str ∧
    props.lookup (js "content") = content.map JSVal.str

/-- The slide the spec asks for: a title block holding the title, or
`Untitled Slide` when it is empty or missing, then a body block, rendered as a
bulleted list, holding the content, or the empty string.  The geometry and
type options are those written in `agent.js` 80-81. -/
def specSlide (title content : Option JSString) : Slide :=
  { blocks :=
      [{ text := .str (match title with
                       | some t => if t = [] then js "Untitled Slide" else t
                       | none => js "Untitled Slide")
         options :=
           .obj [(js "x", .num (.finite (1 / 2))), (js "y", .num (.finite (1 / 4))),
                 (js "w", .str (js "90%")), (js "h", .num (.finite 1)),
                 (js "fontSize", .num (.finite 32)), (js "bold", .bool true),
                 (js "color", .str (js "363636"))] },
       { text := .str (match content with
                       | some c => c
                       | none => [])
         options :=
           .obj [(js "x", .num (.finite (1 / 2))), (js "y", .num (.finite (3 / 2))),
                 (js "w", .str (js "90%")), (js "h", .num (.finite (15 / 4))),
                 (js "fontSize", .num (.finite 18)), (js "color", .str (js "363636")),
                 (js "bullet", .bool true)] }] }

/-- The block is rendered as a bulleted list: its options carry `bullet: true`. -/
def TextBlock.bulleted (b : TextBlock) : Prop :=
  ∃ props, b.options = .obj props ∧ props.lookup (js "bullet") = some (.bool true)

/-- The string `ds` is the decimal numeral of `n`: digits only, no leading
zero except for `0` itself, and of value `n`. -/
def IsDecimalNumeral (ds : JSString) (n : Nat) : Prop :=
  ds ≠ [] ∧ (∀ d ∈ ds, 48 ≤ d ∧ d ≤ 57) ∧ (ds.head? = some 48 → ds = [48]) ∧
    ds.foldl (fun acc d => 10 * acc + (d - 48)) 0 = n

/-- A saved preference in the spec's words: the string stored under `key`, or
`fallback` when nothing, or the empty string, is stored there. -/
def preference (store : List (JSString × JSString)) (key fallback : JSString) : JSString :=
  match store.find? fun kv => kv.1 == key with
  | some kv => if kv.2 = [] then fallback else kv.2
  | none => fallback

/-- The part of the page a user sees as the state of the form and of the
result area. -/
structure UIState where
  isProcessing : Bool
  uploadedFile : Option File
  statusDisplay : List StatusItem
  resultAreaDisplay : JSString
  resultDisplay : List Element
  userText : JSString
  fileInputValue : JSString
  apiKey : JSString
  llmProvider : JSString
  fileInfoDisplay : JSString
  fileDropZoneDisplay : JSString
  generateBtnDisabled : Bool

/-- The UI state of a page. -/
def Page.ui (p : Page) : UIState :=
  { isProcessing := p.state.isProcessing
    uploadedFile := p.state.uploadedFile
    statusDisplay := p.statusDisplay
    resultAreaDisplay := p.resultAreaDisplay
    resultDisplay := p.resultDisplay
    userText := p.userText
    fileInputValue := p.fileInputValue
    apiKey := p.apiKey
    llmProvider := p.llmProvider
    fileInfoDisplay := p.fileInfoDisplay
    fileDropZoneDisplay := p.fileDropZoneDisplay
    generateBtnDisabled := p.generateBtnDisabled }

/-- The initial UI state in the spec's words: empty status list, hidden result
panel, empty result display, no uploaded file, an empty form with the file drop
zone shown, credential and provider fields holding the saved preferences (as
far as the controls can hold them), `isProcessing` false, and so a disabled
generate button. -/
def initialUI (w : World) (store : List (JSString × JSString)) : UIState :=
  { isProcessing := false
    uploadedFile := none
    statusDisplay := []
    resultAreaDisplay := js "none"
    resultDisplay := []
    userText := w.defaultUserText
    fileInputValue := js ""
    apiKey := inputValue (preference store (js "slidecraft_api_key") (js ""))
    llmProvider :=
      selectValue w.providerOptions (preference store (js "slidecraft_provider") (js "openai"))
    fileInfoDisplay := js "none"
    fileDropZoneDisplay := js "block"
    generateBtnDisabled := true }

/-- The fields a run of `handleSubmit` touches only at its start and at its end. -/
def Page.SameFrame (p q : Page) : Prop :=
  q.state = p.state ∧ q.resultAreaDisplay = p.resultAreaDisplay ∧
    q.resultDisplayDisplay = p.resultDisplayDisplay ∧ q.resultDisplay = p.resultDisplay ∧
    q.localStorage = p.localStorage ∧ q.userText = p.userText ∧ q.llmProvider = p.llmProvider ∧
    q.apiKey = p.apiKey

/-- The status line of a finished successful run. -/
def successLine : StatusItem :=
  statusItem (js "Presentation Generated Successfully!") (js "success")

/-- The status line of a finished failed run. -/
def errorLine : StatusItem := statusItem (js "An error occurred during generation.") (js "error")

/-- The result display of a successful run that built `n` slides. -/
def successPanel (n : Nat) : List Element :=
  [summaryElement (js "Your presentation with " ++ numToString n ++ js " slides is ready.") true,
   startOverBtn]

/-- The result display of a run that failed with the error message `m`. -/
def errorPanel (m : JSString) : List Element :=
  [summaryElement (js "Error: " ++ m) false, startOverBtn]

/-- A status line is terminal: its class is that of a success or of an error. -/
def StatusItem.terminal (item : StatusItem) : Prop :=
  item.className = js "status-item success" ∨ item.className = js "status-item error"

/-! ## A concrete world and page, for evaluating the definitions -/

/-- The generated text of the spec's extraction example. -/
def exampleText : JSString :=
  js "Here is the JSON: [\x7b\"title\":\"A\",\"content\":\"x\"\x7d] Thanks!"

/-- The substring the spec expects from `exampleText`. -/
def exampleJSON : JSString := js "[\x7b\"title\":\"A\",\"content\":\"x\"\x7d]"

/-- The value `exampleJSON` decodes to. -/
def exampleSlides : JSVal :=
  .arr [.obj [(js "title", .str (js "A")), (js "content", .str (js "x"))]]

/-- A world whose network answers 200 with the body `body`, whose decoder
knows the texts `body` (as `decoded`), `exampleJSON` and `[]`, and whose save
succeeds. -/
def exampleWorld (body : JSString) (decoded : JSVal) : World :=
  { fetch := fun _ => .ok { ok := true, status := 200, body := body }
    jsonParse := fun s =>
      if s = exampleJSON then .ok exampleSlides
      else if s = js "[]" then .ok (.arr [])
      else if s = body then .ok decoded
      else .error (js "Unexpected token")
    writeFile := fun _ _ => .ok ()
    typeErrorMessage := js "Cannot read properties of null"
    checkValidity := fun p => !p.userText.isEmpty && !p.apiKey.isEmpty
    defaultUserText := js ""
    defaultProvider := js "openai"
    defaultApiKey := js ""
    providerOptions := [openai, anthropic, google] }

/-- A world whose network answers 401 with the body `unauthorized`. -/
def unauthorizedWorld : World :=
  { exampleWorld (js "") .null with
    fetch := fun _ => .ok { ok := false, status := 401, body := js "unauthorized" } }

/-- A world whose network answers 500 with the body `boom`. -/
def serverErrorWorld : World :=
  { exampleWorld (js "") .null with
    fetch := fun _ => .ok { ok := false, status := 500, body := js "boom" } }

/-- A page with a filled form and an attached file, nothing in flight. -/
def examplePage : Page :=
  { state := { isProcessing := false, uploadedFile := some { name := js "deck.pptx" } }
    userText := js "Quarterly results"
    fileInputValue := js "C:\\fakepath\\deck.pptx"
    fileNameText := js "deck.pptx"
    fileInfoDisplay := js "flex"
    fileDropZoneDisplay := js "none"
    llmProvider := js "openai"
    apiKey := js "sk-test"
    generateBtnDisabled := false
    btnText := some (js "Generate Presentation")
    resultAreaDisplay := js ""
    statusDisplay := []
    resultDisplay := []
    resultDisplayDisplay := js ""
    localStorage := [(js "slidecraft_api_key", js "sk-test"), (js "slidecraft_provider", js "openai")]
    effects := [] }

/-- A response body whose generated text wraps the empty array. -/
def emptyArrayBody : JSString :=
  js "\x7b\"choices\":[\x7b\"message\":\x7b\"content\":\"Sure: [] done\"\x7d\x7d]\x7d"

/-- A world whose model answers with a text wrapping `[]`. -/
def emptyArrayWorld : World :=
  exampleWorld emptyArrayBody (openaiEnvelope (js "Sure: [] done"))

/-- A response body whose generated text is the spec's example. -/
def exampleBody : JSString :=
  js "\x7b\"choices\":[\x7b\"message\":\x7b\"content\":\"Here is the JSON: [\x7b\\\"title\\\":\\\"A\\\",\\\"content\\\":\\\"x\\\"\x7d] Thanks!\"\x7d\x7d]\x7d"

/-- A world whose model answers with the spec's example text. -/
def slidesWorld : World := exampleWorld exampleBody (openaiEnvelope exampleText)

/-- A submit event as the browser delivers it. -/
def submitEvent : Event := { defaultPrevented := false }

/-- The name ends, code unit for code unit, with `.pptx` or with `.potx`. -/
def HasAcceptedSuffix (name : JSString) : Prop :=
  ∃ stem, name = stem ++ js ".pptx" ∨ name = stem ++ js ".potx"

/-- The invariant of the event system: at most one run of `handleSubmit` is in
flight, and while one is, `isProcessing` is set and the result display, with
its start-over button, is hidden. -/
def Sys.Inv (s : Sys) : Prop :=
  s.pending.length ≤ 1 ∧
    (s.pending ≠ [] → s.page.state.isProcessing = true ∧ s.page.resultDisplayDisplay = js "none")

/-- The state right after a first submission on the example page: one run in
flight. -/
def busySys : Sys := step slidesWorld { page := examplePage, pending := [] } .submit

/-- The example page with preferences in the store that differ from what its
fields hold. -/
def stalePage : Page :=
  { examplePage with
    localStorage := [(js "slidecraft_api_key", js "sk-live"),
                     (js "slidecraft_provider", js "anthropic")] }

/-- The example page with a stored provider that no option of the selector has. -/
def foreignPage : Page :=
  { examplePage with
    localStorage := [(js "slidecraft_api_key", js "sk-live"),
                     (js "slidecraft_provider", js "mistral")] }

/-! ## Lemmas on string search and `substring` -/

theorem exists_first_split (c : Nat) (s : JSString) (h : c ∈ s) :
    ∃ pre rest, s = pre ++ c :: rest ∧ c ∉ pre := by
  induction s with
  | nil => simp at h
  | cons x xs ih =>
    by_cases hx : c = x
    · exact ⟨[], xs, by simp [hx], by simp⟩
    · have hmem : c ∈ xs := by
        rcases List.mem_cons.mp h with h | h
        · exact absurd h hx
        · exact h
      obtain ⟨pre, rest, hs, hn⟩ := ih hmem
      refine ⟨x :: pre, rest, by simp [hs], ?_⟩
      simp only [List.mem_cons, not_or]
      exact ⟨hx, hn⟩

theorem exists_last_split (c : Nat) (s : JSString) (h : c ∈ s) :
    ∃ pre post, s = pre ++ c :: post ∧ c ∉ post := by
  induction s with
  | nil => simp at h
  | cons x xs ih =>
    by_cases hmem : c ∈ xs
    · obtain ⟨pre, post, hs, hn⟩ := ih hmem
      exact ⟨x :: pre, post, by simp [hs], hn⟩
    · have hx : c = x := by
        rcases List.mem_cons.mp h with h | h
        · exact h
        · exact absurd h hmem
      exact ⟨[], xs, by simp [hx], by simpa [hx] using hmem⟩

theorem indexOfFrom_not_mem (c : Nat) (s : JSString) (i : Nat) (h : c ∉ s) :
    indexOfFrom c s i = -1 := by
  induction s generalizing i with
  | nil => rfl
  | cons x xs ih =>
    simp only [List.mem_cons, not_or] at h
    have hx : ¬ x = c := fun e => h.1 e.symm
    simp [indexOfFrom, hx, ih _ h.2]

theorem indexOfFrom_append (c : Nat) (pre rest : JSString) (i : Nat) (h : c ∉ pre) :
    indexOfFrom c (pre ++ c :: rest) i = ((i + pre.length : Nat) : Int) := by
  induction pre generalizing i with
  | nil => simp [indexOfFrom]
  | cons x xs ih =>
    simp only [List.mem_cons, not_or] at h
    have hx : ¬ x = c := fun e => h.1 e.symm
    rw [List.cons_append]
    simp only [indexOfFrom, hx, if_false]
    rw [ih _ h.2, List.length_cons]
    congr 1
    omega

theorem lastIndexOfFrom_not_mem (c : Nat) (s : JSString) (i : Nat) (acc : Int) (h : c ∉ s) :
    lastIndexOfFrom c s i acc = acc := by
  induction s generalizing i acc with
  | nil => rfl
  | cons x xs ih =>
    simp only [List.mem_cons, not_or] at h
    have hx : ¬ x = c := fun e => h.1 e.symm
    simp [lastIndexOfFrom, hx, ih _ _ h.2]

theorem lastIndexOfFrom_append (c : Nat) (pre post : JSString) (i : Nat) (acc : Int)
    (h : c ∉ post) :
    lastIndexOfFrom c (pre ++ c :: post) i acc = ((i + pre.length : Nat) : Int) := by
  induction pre generalizing i acc with
  | nil => simp [lastIndexOfFrom, lastIndexOfFrom_not_mem c post _ _ h]
  | cons x xs ih =>
    rw [List.cons_append]
    simp only [lastIndexOfFrom]
    rw [ih, List.length_cons]
    congr 1
    omega

theorem indexOf_not_mem (c : Nat) (s : JSString) (h : c ∉ s) : indexOf s c = -1 :=
  indexOfFrom_not_mem c s 0 h

theorem indexOf_append (c : Nat) (pre rest : JSString) (h : c ∉ pre) :
    indexOf (pre ++ c :: rest) c = (pre.length : Int) := by
  simp [indexOf, indexOfFrom_append c pre rest 0 h]

theorem lastIndexOf_not_mem (c : Nat) (s : JSString) (h : c ∉ s) : lastIndexOf s c = -1 :=
  lastIndexOfFrom_not_mem c s 0 (-1) h

theorem lastIndexOf_append (c : Nat) (pre post : JSString) (h : c ∉ post) :
    lastIndexOf (pre ++ c :: post) c = (pre.length : Int) := by
  simp [lastIndexOf, lastIndexOfFrom_append c pre post 0 (-1) h]

/-- With `0 ≤ a ≤ b ≤ s.length` no clamping or swapping happens. -/
theorem substring_of_le (s : JSString) (a b : Nat) (hab : a ≤ b) (hb : b ≤ s.length) :
    substring s a b = (s.drop a).take (b - a) := by
  have h1 : min (max (a : Int) 0) (s.length : Int) = (a : Int) := by omega
  have h2 : min (max (b : Int) 0) (s.length : Int) = (b : Int) := by omega
  simp only [substring, h1, h2]
  have h3 : min (a : Int) (b : Int) = (a : Int) := by omega
  have h4 : max (a : Int) (b : Int) = (b : Int) := by omega
  simp [h3, h4]

/-- When the first argument is a valid index and the second does not exceed
it, the result lies inside the first `a` code units. -/
theorem substring_swapped (s : JSString) (a : Nat) (b : Int) (hba : b ≤ a) (ha : a ≤ s.length) :
    ∀ x ∈ substring s a b, x ∈ s.take a := by
  intro x hx
  have h1 : min (max (a : Int) 0) (s.length : Int) = (a : Int) := by omega
  simp only [substring, h1] at hx
  have h3 : max (a : Int) (min (max b 0) (s.length : Int)) = (a : Int) := by omega
  rw [h3] at hx
  have h5 := List.mem_of_mem_take hx
  have h6 : (List.drop (min (a : Int) (min (max b 0) (s.length : Int))).toNat s).take
      ((a : Int).toNat - (min (a : Int) (min (max b 0) (s.length : Int))).toNat) =
      (s.take a).drop (min (a : Int) (min (max b 0) (s.length : Int))).toNat := by
    rw [List.drop_take]
    simp
  rw [h6] at hx
  exact List.mem_of_mem_drop hx

/-- Every code unit of a substring is a code unit of the string. -/
theorem substring_subset (s : JSString) (a b : Int) : ∀ x ∈ substring s a b, x ∈ s := by
  intro x hx
  exact List.mem_of_mem_drop (List.mem_of_mem_take hx)

/-- The extraction on a text whose first `[` comes before its last `]`. -/
theorem extract_paired (pre mid post : JSString) (hpre : lbracket ∉ pre)
    (hpost : rbracket ∉ post) :
    substring (pre ++ lbracket :: (mid ++ rbracket :: post))
        (indexOf (pre ++ lbracket :: (mid ++ rbracket :: post)) lbracket)
        (lastIndexOf (pre ++ lbracket :: (mid ++ rbracket :: post)) rbracket + 1)
      = lbracket :: (mid ++ [rbracket]) := by
  rw [indexOf_append lbracket pre _ hpre]
  have hsplit : pre ++ lbracket :: (mid ++ rbracket :: post)
      = (pre ++ lbracket :: mid) ++ rbracket :: post := by simp
  have hlast : lastIndexOf (pre ++ lbracket :: (mid ++ rbracket :: post)) rbracket
      = ((pre ++ lbracket :: mid).length : Int) := by
    rw [hsplit]
    exact lastIndexOf_append rbracket _ post hpost
  rw [hlast]
  have hb : (((pre ++ lbracket :: mid).length : Int) + 1)
      = ((pre.length + (mid.length + 2) : Nat) : Int) := by
    simp only [List.length_append, List.length_cons]
    push_cast
    ring
  rw [hb, substring_of_le _ _ _ (Nat.le_add_right _ _)
    (by simp only [List.length_append, List.length_cons]; omega)]
  rw [List.drop_left, Nat.add_sub_cancel_left]
  have : lbracket :: (mid ++ rbracket :: post) = (lbracket :: (mid ++ [rbracket])) ++ post := by
    simp
  rw [this, List.take_left']
  simp

/-- The extraction on any text: either the text has a first `[` before its
last `]` and the result is the slice between them, or the result has no `[`. -/
theorem extract_shape (t : JSString) :
    (∃ pre mid post, t = pre ++ lbracket :: (mid ++ rbracket :: post) ∧ lbracket ∉ pre ∧
        rbracket ∉ post ∧
        substring t (indexOf t lbracket) (lastIndexOf t rbracket + 1)
          = lbracket :: (mid ++ [rbracket])) ∨
    lbracket ∉ substring t (indexOf t lbracket) (lastIndexOf t rbracket + 1) := by
  by_cases hl : lbracket ∈ t
  · obtain ⟨pre, rest, ht, hpre⟩ := exists_first_split lbracket t hl
    have hidx : indexOf t lbracket = (pre.length : Int) := by
      rw [ht]; exact indexOf_append lbracket pre rest hpre
    have hlen : pre.length ≤ t.length := by rw [ht]; simp
    have htake : t.take pre.length = pre := by rw [ht]; simp
    by_cases hr : rbracket ∈ t
    · obtain ⟨a, post, ht2, hpost⟩ := exists_last_split rbracket t hr
      have hlast : lastIndexOf t rbracket = (a.length : Int) := by
        rw [ht2]; exact lastIndexOf_append rbracket a post hpost
      by_cases hlt : pre.length < a.length
      · left
        have heq : pre ++ lbracket :: rest = a ++ rbracket :: post := by rw [← ht, ← ht2]
        obtain ⟨mid, hmid⟩ : ∃ mid, a = pre ++ lbracket :: mid := by
          rcases List.append_eq_append_iff.mp heq with ⟨a', ha, hb⟩ | ⟨c', hc, hd⟩
          · cases a' with
            | nil => simp at ha; simp [ha] at hlt
            | cons y ys =>
              simp only [List.cons_append, List.cons.injEq] at hb
              exact ⟨ys, by rw [ha, hb.1]⟩
          · have : a.length ≤ pre.length := by rw [hc]; simp
            omega
        have ht3 : t = pre ++ lbracket :: (mid ++ rbracket :: post) := by
          rw [ht2, hmid]; simp
        refine ⟨pre, mid, post, ht3, hpre, hpost, ?_⟩
        rw [ht3]
        exact extract_paired pre mid post hpre hpost
      · right
        intro hmem
        have := substring_swapped t pre.length (lastIndexOf t rbracket + 1) ?_ hlen lbracket
          (by rw [← hidx]; exact hmem)
        · rw [htake] at this; exact hpre this
        · rw [hlast]
          have hne : pre.length ≠ a.length := by
            intro he
            have heq : pre ++ lbracket :: rest = a ++ rbracket :: post := by rw [← ht, ← ht2]
            have := List.append_inj_right heq he
            simp [lbracket, rbracket] at this
          omega
    · right
      intro hmem
      have := substring_swapped t pre.length (lastIndexOf t rbracket + 1)
        (by rw [lastIndexOf_not_mem rbracket t hr]; omega) hlen lbracket
        (by rw [← hidx]; exact hmem)
      rw [htake] at this
      exact hpre this
  · right
    intro hmem
    exact hl (substring_subset t _ _ lbracket hmem)

/-! ## Lemmas on `parseAPIResponse` -/

theorem parseAPIResponseTry_of_path (data : JSVal) (provider : JSString) (path : List Key)
    (t : JSString) (hprov : (provider, path) ∈ providerPaths)
    (hpath : data.path path = some (.str t)) :
    parseAPIResponseTry data provider
      = some (substring t (indexOf t lbracket) (lastIndexOf t rbracket + 1)) := by
  have h1 : anthropic ≠ openai := by decide
  have h2 : google ≠ openai := by decide
  have h3 : google ≠ anthropic := by decide
  simp only [providerPaths, List.mem_cons, Prod.mk.injEq, List.mem_singleton, List.not_mem_nil,
    or_false] at hprov
  rcases hprov with ⟨hp, hq⟩ | ⟨hp, hq⟩ | ⟨hp, hq⟩ <;> subst hp <;> subst hq <;>
    simp [parseAPIResponseTry, hpath, h1, h2, h3]

theorem parseAPIResponse_of_path (data : JSVal) (provider : JSString) (path : List Key)
    (t : JSString) (hprov : (provider, path) ∈ providerPaths)
    (hpath : data.path path = some (.str t)) :
    parseAPIResponse data provider
      = .ok (substring t (indexOf t lbracket) (lastIndexOf t rbracket + 1)) := by
  simp [parseAPIResponse, parseAPIResponseTry_of_path data provider path t hprov hpath]

/-- A successful extraction comes from a string at the path of a supported provider. -/
theorem parseAPIResponse_ok_inv (data : JSVal) (provider r : JSString)
    (h : parseAPIResponse data provider = .ok r) :
    ∃ path t, (provider, path) ∈ providerPaths ∧ data.path path = some (.str t) ∧
      r = substring t (indexOf t lbracket) (lastIndexOf t rbracket + 1) := by
  unfold parseAPIResponse at h
  cases htry : parseAPIResponseTry data provider with
  | none => rw [htry] at h; cases h
  | some r' =>
    rw [htry] at h
    have hr : r' = r := by injection h
    subst hr
    unfold parseAPIResponseTry at htry
    have key : ∀ path, data.path path = (if provider = openai then data.path openaiPath
        else if provider = anthropic then data.path anthropicPath
        else if provider = google then data.path googlePath else none) →
        (provider, path) ∈ providerPaths →
        ∃ path t, (provider, path) ∈ providerPaths ∧ data.path path = some (.str t) ∧
          r' = substring t (indexOf t lbracket) (lastIndexOf t rbracket + 1) := by
      intro path hp hmem
      rw [← hp] at htry
      cases hv : data.path path with
      | none => rw [hv] at htry; cases htry
      | some v =>
        rw [hv] at htry
        cases v with
        | str s =>
          simp only [Option.some_bind, Option.some.injEq] at htry
          exact ⟨path, s, hmem, hv, htry.symm⟩
        | _ => simp at htry
    by_cases h1 : provider = openai
    · exact key openaiPath (by rw [if_pos h1]) (by simp [providerPaths, h1])
    · by_cases h2 : provider = anthropic
      · exact key anthropicPath (by rw [if_neg h1, if_pos h2]) (by simp [providerPaths, h2])
      · by_cases h3 : provider = google
        · exact key googlePath (by rw [if_neg h1, if_neg h2, if_pos h3]) (by simp [providerPaths, h3])
        · simp [h1, h2, h3] at htry

/-- The example decoder yields arrays only from texts that contain `[`, when the
body it knows does not decode to an array. -/
theorem exampleWorld_arraysNeedBracket (body : JSString) :
    ArraysNeedBracket (exampleWorld body .null) := by
  intro s xs h
  simp only [exampleWorld] at h
  by_cases h1 : s = exampleJSON
  · subst h1; decide
  · by_cases h2 : s = js "[]"
    · subst h2; decide
    · rw [if_neg h1, if_neg h2] at h
      by_cases h3 : s = body
      · rw [if_pos h3] at h
        injection h with h
        cases h
      · rw [if_neg h3] at h
        cases h

/-! ## Lemmas on `callLLM` -/

/-- A supported provider always gets a request. -/
theorem callLLMRequest_supported (text provider key : JSString)
    (hprov : provider ∈ [openai, anthropic, google]) :
    ∃ request, callLLMRequest text provider key = .ok request := by
  have h1 : anthropic ≠ openai := by decide
  have h2 : google ≠ openai := by decide
  have h3 : google ≠ anthropic := by decide
  simp only [List.mem_cons, List.mem_singleton, List.not_mem_nil, or_false] at hprov
  rcases hprov with hp | hp | hp <;> subst hp
  · exact ⟨_, by simp only [callLLMRequest, if_true]; rfl⟩
  · exact ⟨_, by simp only [callLLMRequest, if_neg h1, if_true]; rfl⟩
  · exact ⟨_, by simp only [callLLMRequest, if_neg h2, if_neg h3, if_true]; rfl⟩

/-! ## Frame lemmas: what the segments of `handleSubmit` leave alone -/

theorem Page.SameFrame.trans {p q r : Page} (h1 : p.SameFrame q) (h2 : q.SameFrame r) :
    p.SameFrame r := by
  obtain ⟨a1, a2, a3, a4, a5, a6, a7, a8⟩ := h1
  obtain ⟨b1, b2, b3, b4, b5, b6, b7, b8⟩ := h2
  exact ⟨b1.trans a1, b2.trans a2, b3.trans a3, b4.trans a4, b5.trans a5, b6.trans a6,
    b7.trans a7, b8.trans a8⟩

theorem renderStatus_frame (message type : JSString) (p : Page) :
    p.SameFrame (renderStatus message type p) := by
  simp [Page.SameFrame, renderStatus]

theorem generatePresentationBuild_frame (w : World) (v : JSVal) (p : Page) :
    p.SameFrame (generatePresentationBuild w v p).1 ∧
      (generatePresentationBuild w v p).1.statusDisplay = p.statusDisplay := by
  unfold generatePresentationBuild Page.SameFrame
  split
  · split <;> simp
  · simp

theorem submitDispatch_frame (p : Page) : p.SameFrame (submitDispatch p).1 := by
  unfold submitDispatch Page.SameFrame
  simp only [renderStatus]
  split <;> simp

theorem submitParse_frame (w : World) (fetched : Except JSString Response) (p : Page) :
    p.SameFrame (submitParse w fetched p).1 := by
  unfold submitParse
  repeat' first
    | split
    | simp only [renderStatus]
  all_goals first
    | (simp [Page.SameFrame, renderStatus]; done)
    | (rename_i heq
       have h1 := congrArg Prod.fst heq
       simp only at h1
       rw [← h1]
       refine Page.SameFrame.trans ?_ (generatePresentationBuild_frame w _ _).1
       simp [Page.SameFrame])

/-! ## Lemmas on the run of `handleSubmit` -/

theorem submitSaved_spec (n : Nat) (saved : Except JSString Unit) (p : Page) :
    (submitSaved n saved p).1.state = p.state ∧
    (submitSaved n saved p).1.resultAreaDisplay = p.resultAreaDisplay ∧
    (submitSaved n saved p).1.localStorage = p.localStorage ∧
    (submitSaved n saved p).1.effects = p.effects ∧
    (∀ u, (submitSaved n saved p).2 = .ok u →
      (submitSaved n saved p).1.statusDisplay = [successLine] ∧
      (submitSaved n saved p).1.resultDisplay = successPanel n ∧
      (submitSaved n saved p).1.resultDisplayDisplay = js "block") := by
  unfold submitSaved
  split
  · simp
  · simp [renderResult, renderStatus, successLine, successPanel]

theorem submitTry_spec (w : World) (p : Page) :
    (submitTry w p).1.state = p.state ∧
    (submitTry w p).1.resultAreaDisplay = p.resultAreaDisplay ∧
    (submitTry w p).1.localStorage = p.localStorage ∧
    (∀ u, (submitTry w p).2 = .ok u → ∃ n,
      (submitTry w p).1.statusDisplay = [successLine] ∧
      (submitTry w p).1.resultDisplay = successPanel n ∧
      (submitTry w p).1.resultDisplayDisplay = js "block") := by
  have hd := submitDispatch_frame p
  unfold submitTry
  split
  · rename_i p1 m heq
    rw [heq] at hd
    exact ⟨hd.1, hd.2.1, hd.2.2.2.2.1, fun u h => by cases h⟩
  · rename_i p1 request heq
    rw [heq] at hd
    have hp := submitParse_frame w (w.fetch request) p1
    split
    · rename_i p2 m heq2
      rw [heq2] at hp
      exact ⟨hp.1.trans hd.1, hp.2.1.trans hd.2.1, hp.2.2.2.2.1.trans hd.2.2.2.2.1,
        fun u h => by cases h⟩
    · rename_i p2 n pptx heq2
      rw [heq2] at hp
      obtain ⟨s1, s2, s3, _, s5⟩ := submitSaved_spec n (w.writeFile pptx deckFileName) p2
      exact ⟨s1.trans (hp.1.trans hd.1), s2.trans (hp.2.1.trans hd.2.1),
        s3.trans (hp.2.2.2.2.1.trans hd.2.2.2.2.1), fun u h => ⟨n, s5 u h⟩⟩

/-- What the `catch` and `finally` blocks leave behind after an error. -/
theorem submitEnd_error (w : World) (p : Page) (m : JSString) :
    (submitEnd w (p, .error m)).state = { p.state with isProcessing := false } ∧
    (submitEnd w (p, .error m)).resultAreaDisplay = p.resultAreaDisplay ∧
    (submitEnd w (p, .error m)).resultDisplayDisplay = js "block" ∧
    (submitEnd w (p, .error m)).statusDisplay = [errorLine] ∧
    (submitEnd w (p, .error m)).resultDisplay = errorPanel m ∧
    (submitEnd w (p, .error m)).localStorage = p.localStorage ∧
    (submitEnd w (p, .error m)).effects
      = p.effects ++ [.consoleError (js "Generation Failed:") m] := by
  simp [submitEnd, submitFinally, submitCatch, updateUI, renderResult, renderStatus, errorLine,
    errorPanel]

/-- What the `finally` block leaves behind after a `try` block that completed. -/
theorem submitEnd_ok (w : World) (p : Page) (u : Unit) :
    (submitEnd w (p, .ok u)).state = { p.state with isProcessing := false } ∧
    (submitEnd w (p, .ok u)).resultAreaDisplay = p.resultAreaDisplay ∧
    (submitEnd w (p, .ok u)).resultDisplayDisplay = p.resultDisplayDisplay ∧
    (submitEnd w (p, .ok u)).statusDisplay = p.statusDisplay ∧
    (submitEnd w (p, .ok u)).resultDisplay = p.resultDisplay ∧
    (submitEnd w (p, .ok u)).localStorage = p.localStorage ∧
    (submitEnd w (p, .ok u)).effects = p.effects := by
  simp [submitEnd, submitFinally, updateUI]

theorem submitStart_spec (w : World) (p : Page) :
    (submitStart w p).state = { p.state with isProcessing := true } ∧
    (submitStart w p).resultAreaDisplay = js "block" ∧
    (submitStart w p).resultDisplayDisplay = js "none" ∧
    (submitStart w p).statusDisplay = [] ∧
    (submitStart w p).localStorage = p.localStorage ∧
    (submitStart w p).userText = p.userText ∧
    (submitStart w p).llmProvider = p.llmProvider ∧
    (submitStart w p).apiKey = p.apiKey ∧
    (submitStart w p).effects = p.effects := by
  simp [submitStart, updateUI]

theorem startOverBtn_clickable (p : Page) (h1 : p.resultAreaDisplay = js "block")
    (h2 : p.resultDisplayDisplay = js "block") (h3 : startOverBtn ∈ p.resultDisplay) :
    startOverClickable p = true := by
  have hb : (js "block" != js "none") = true := by decide
  simp only [startOverClickable, h1, h2, hb, Bool.true_and, List.any_eq_true]
  exact ⟨startOverBtn, h3, rfl⟩

theorem callLLM_ok_inv (w : World) (text provider key : JSString) (apiResponse : JSVal)
    (h : callLLM w text provider key = .ok apiResponse) :
    ∃ request, callLLMRequest text provider key = .ok request ∧
      callLLMResponse w (w.fetch request) = .ok apiResponse := by
  unfold callLLM at h
  split at h
  · cases h
  · rename_i request heq
    exact ⟨request, heq, h⟩

/-- The `try` block on a decoded value that is an empty array or no array. -/
theorem submitTry_no_slide_data (w : World) (p : Page) (request : Request) (apiResponse : JSVal)
    (jsonString : JSString) (v : JSVal)
    (hreq : callLLMRequest p.userText p.llmProvider p.apiKey = .ok request)
    (hresp : callLLMResponse w (w.fetch request) = .ok apiResponse)
    (hparse : parseAPIResponse apiResponse p.llmProvider = .ok jsonString)
    (hdecode : w.jsonParse jsonString = .ok v) (hv : ∀ xs, v = .arr xs → xs = []) :
    submitTry w p =
      ({ p with
          statusDisplay := p.statusDisplay ++
            [statusItem (js "Calling AI to structure content...") (js "pending"),
             statusItem (js "Parsing AI response...") (js "pending")]
          effects := p.effects ++ [.fetch request] }, .error noSlideDataMessage) := by
  have hd : submitDispatch p =
      ({ renderStatus (js "Calling AI to structure content...") (js "pending") p with
          effects := p.effects ++ [.fetch request] }, .ok request) := by
    simp [submitDispatch, renderStatus, hreq]
  unfold submitTry
  rw [hd]
  simp only
  have hp : submitParse w (w.fetch request)
      { renderStatus (js "Calling AI to structure content...") (js "pending") p with
          effects := p.effects ++ [.fetch request] } =
      ({ p with
          statusDisplay := p.statusDisplay ++
            [statusItem (js "Calling AI to structure content...") (js "pending"),
             statusItem (js "Parsing AI response...") (js "pending")]
          effects := p.effects ++ [.fetch request] }, .error noSlideDataMessage) := by
    unfold submitParse
    rw [hresp]
    simp only [renderStatus, hparse, hdecode]
    cases v with
    | arr xs =>
      have := hv xs rfl
      subst this
      simp
    | _ => simp
  rw [hp]

/-! ## Lemmas on `handleFile` -/

theorem endsWith_iff (s t : JSString) : endsWith s t = true ↔ ∃ stem, s = stem ++ t := by
  unfold endsWith
  rw [List.isSuffixOf_iff_suffix]
  constructor
  · rintro ⟨stem, h⟩
    exact ⟨stem, h.symm⟩
  · rintro ⟨stem, h⟩
    exact ⟨stem, h.symm⟩

theorem hasAcceptedSuffix_iff (name : JSString) :
    HasAcceptedSuffix name ↔
      (endsWith name (js ".pptx") || endsWith name (js ".potx")) = true := by
  rw [Bool.or_eq_true, endsWith_iff, endsWith_iff]
  constructor
  · rintro ⟨stem, h | h⟩
    · exact Or.inl ⟨stem, h⟩
    · exact Or.inr ⟨stem, h⟩
  · rintro (⟨stem, h⟩ | ⟨stem, h⟩)
    · exact ⟨stem, Or.inl h⟩
    · exact ⟨stem, Or.inr h⟩

/-! ## The in-flight invariant -/

theorem startOverClickable_hidden (p : Page) (h : p.resultDisplayDisplay = js "none") :
    startOverClickable p = false := by
  simp [startOverClickable, h]

theorem pageLoad_inv (w : World) (markup : Page) : (pageLoad w markup).Inv := by
  simp [Sys.Inv, pageLoad]

theorem step_inv (w : World) (s : Sys) (a : Action) (h : s.Inv) : (step w s a).Inv := by
  obtain ⟨hlen, hproc⟩ := h
  cases a with
  | submit =>
    simp only [step]
    split
    · exact ⟨hlen, hproc⟩
    · rename_i hnp
      have hnil : s.pending = [] := by
        by_contra hne
        exact hnp (hproc hne).1
      obtain ⟨s1, _, s3, _⟩ := submitStart_spec w s.page
      have hd := submitDispatch_frame (submitStart w s.page)
      split
      · simp [Sys.Inv, hnil]
      · rename_i p request heq
        rw [heq] at hd
        refine ⟨by simp [hnil], fun _ => ⟨?_, ?_⟩⟩
        · show p.state.isProcessing = true
          rw [hd.1, s1]
        · show p.resultDisplayDisplay = js "none"
          rw [hd.2.2.1, s3]
  | fetchSettled i fetched =>
    simp only [step]
    split
    · rename_i request hget
      have hne : s.pending ≠ [] := by
        intro hnil
        rw [hnil] at hget
        simp at hget
      have hp := submitParse_frame w fetched s.page
      split
      · refine ⟨?_, fun hne2 => absurd ?_ hne2⟩
        · simp only [List.length_eraseIdx]
          split <;> omega
        · apply List.eq_nil_of_length_eq_zero
          have hi : i < s.pending.length := by
            rcases List.get?_eq_some.mp hget with ⟨hi, _⟩
            exact hi
          simp only [List.length_eraseIdx, hi, if_true]
          omega
      · rename_i p n pptx heq
        rw [heq] at hp
        refine ⟨by simpa using hlen, fun _ => ⟨?_, ?_⟩⟩
        · show p.state.isProcessing = true
          rw [hp.1]; exact (hproc hne).1
        · show p.resultDisplayDisplay = js "none"
          rw [hp.2.2.1]; exact (hproc hne).2
    · exact ⟨hlen, hproc⟩
  | saveSettled i saved =>
    simp only [step]
    split
    · rename_i n pptx hget
      have hi : i < s.pending.length := by
        rcases List.get?_eq_some.mp hget with ⟨hi, _⟩
        exact hi
      refine ⟨?_, fun hne2 => absurd ?_ hne2⟩
      · simp only [List.length_eraseIdx]
        split <;> omega
      · apply List.eq_nil_of_length_eq_zero
        simp only [List.length_eraseIdx, hi, if_true]
        omega
    · exact ⟨hlen, hproc⟩
  | fileChosen file =>
    refine ⟨hlen, fun hne => ?_⟩
    have := hproc hne
    cases file with
    | none => simpa [step, handleFile, updateUI] using this
    | some f =>
      simp only [step, handleFile]
      split <;> simpa [updateUI] using this
  | fileRemoved =>
    exact ⟨hlen, fun hne => by simpa [step, removeFile, updateUI] using hproc hne⟩
  | textInput value =>
    exact ⟨hlen, fun hne => by simpa [step, updateUI] using hproc hne⟩
  | keyInput value =>
    exact ⟨hlen, fun hne => by simpa [step, updateUI, saveSettings] using hproc hne⟩
  | providerChange value =>
    simp only [step]
    split
    · exact ⟨hlen, fun hne => by simpa [saveSettings] using hproc hne⟩
    · exact ⟨hlen, hproc⟩
  | startOver =>
    simp only [step]
    split
    · rename_i hclick
      have hnil : s.pending = [] := by
        by_contra hne
        rw [startOverClickable_hidden _ (hproc hne).2] at hclick
        cases hclick
      exact ⟨hlen, fun hne => absurd hnil hne⟩
    · exact ⟨hlen, hproc⟩

theorem run_inv (w : World) (s : Sys) (actions : List Action) (h : s.Inv) :
    (run w s actions).Inv := by
  induction actions generalizing s with
  | nil => exact h
  | cons a rest ih => exact ih (step w s a) (step_inv w s a h)

/-! ## Lemmas on number conversion and on the preference store -/

theorem digitsRev_spec (fuel n : Nat) (h : n < fuel) :
    digitsRev fuel n ≠ [] ∧ (∀ d ∈ digitsRev fuel n, 48 ≤ d ∧ d ≤ 57) ∧
    ((digitsRev fuel n).getLast? = some 48 → digitsRev fuel n = [48]) ∧
    (digitsRev fuel n).foldr (fun d acc => 10 * acc + (d - 48)) 0 = n := by
  induction fuel generalizing n with
  | zero => omega
  | succ fuel ih =>
    by_cases h0 : n / 10 = 0
    · have hlt : n < 10 := by omega
      have hmod : n % 10 = n := Nat.mod_eq_of_lt hlt
      simp only [digitsRev, h0, if_true, hmod]
      refine ⟨by simp, ?_, ?_, ?_⟩
      · intro d hd
        simp only [List.mem_singleton] at hd
        omega
      · intro hl
        simp only [List.getLast?_singleton, Option.some.injEq] at hl
        have : n = 0 := by omega
        simp [this]
      · simp
    · have hrec : n / 10 < fuel := by omega
      obtain ⟨i1, i2, i3, i4⟩ := ih (n / 10) hrec
      simp only [digitsRev, h0, if_false]
      refine ⟨by simp, ?_, ?_, ?_⟩
      · intro d hd
        rcases List.mem_cons.mp hd with hd | hd
        · omega
        · exact i2 d hd
      · intro hl
        exfalso
        have hl2 : (digitsRev fuel (n / 10)).getLast? = some 48 := by
          cases hrest : digitsRev fuel (n / 10) with
          | nil => exact absurd hrest i1
          | cons y ys =>
            rw [hrest, List.getLast?_cons_cons] at hl
            exact hl
        have h48 := i3 hl2
        rw [h48] at i4
        simp at i4
        exact h0 i4.symm
      · simp only [List.foldr_cons, i4]
        omega

theorem numToString_decimal (n : Nat) : IsDecimalNumeral (numToString n) n := by
  obtain ⟨h1, h2, h3, h4⟩ := digitsRev_spec (n + 1) n (Nat.lt_succ_self n)
  unfold numToString
  refine ⟨by simpa using h1, ?_, ?_, ?_⟩
  · intro d hd
    exact h2 d (List.mem_reverse.mp hd)
  · intro hh
    rw [List.head?_reverse] at hh
    rw [h3 hh]
    rfl
  · rw [List.foldl_reverse]
    exact h4

theorem storedOr_eq_preference (store : List (JSString × JSString)) (key fallback : JSString) :
    storedOr store key fallback = preference store key fallback := by
  induction store with
  | nil => rfl
  | cons kv rest ih =>
    unfold storedOr preference at ih ⊢
    by_cases hk : key = kv.1
    · have h1 : (key == kv.1) = true := by simp [hk]
      have h2 : (kv.1 == key) = true := by simp [hk]
      simp only [List.lookup, h1, List.find?, h2]
      cases hv : kv.2
      · simp
      · simp
    · have h1 : (key == kv.1) = false := by simp [hk]
      have h2 : (kv.1 == key) = false := by
        simp only [beq_eq_false_iff_ne, ne_eq]
        exact fun e => hk e.symm
      simp only [List.lookup, h1, List.find?, h2]
      exact ih

theorem storedOr_of_lookup (store : List (JSString × JSString)) (key fallback v : JSString)
    (h : store.lookup key = some v) (hv : v ≠ []) : storedOr store key fallback = v := by
  unfold storedOr
  rw [h]
  cases v with
  | nil => exact absurd rfl hv
  | cons x xs => rfl

theorem storedOr_of_missing (store : List (JSString × JSString)) (key fallback : JSString)
    (h : store.lookup key = none ∨ store.lookup key = some []) :
    storedOr store key fallback = fallback := by
  unfold storedOr
  rcases h with h | h
  · rw [h]
  · rw [h]
    rfl

theorem inputValue_of_no_break (v : JSString) (h10 : 10 ∉ v) (h13 : 13 ∉ v) : inputValue v = v := by
  unfold inputValue
  rw [List.filter_eq_self]
  intro u hu
  have a : u ≠ 10 := fun e => h10 (e ▸ hu)
  have b : u ≠ 13 := fun e => h13 (e ▸ hu)
  simp [a, b]

/-! ## Lemmas on `resetApp` and `generatePresentation` -/

theorem handleSubmit_localStorage (w : World) (e : Event) (p : Page) :
    (handleSubmit w e p).2.localStorage = p.localStorage := by
  unfold handleSubmit
  split
  · rfl
  · obtain ⟨_, _, t3, _⟩ := submitTry_spec w (submitStart w p)
    obtain ⟨_, _, _, _, s5, _⟩ := submitStart_spec w p
    show (submitEnd w (submitTry w (submitStart w p))).localStorage = p.localStorage
    cases hout : submitTry w (submitStart w p) with
    | mk q r =>
      rw [hout] at t3
      cases r with
      | error m => rw [(submitEnd_error w q m).2.2.2.2.2.1, t3, s5]
      | ok u => rw [(submitEnd_ok w q u).2.2.2.2.2.1, t3, s5]

theorem resetApp_ui (w : World) (p : Page) : (resetApp w p).ui = initialUI w p.localStorage := by
  simp [resetApp, loadSettings, updateUI, formReset, Page.ui, initialUI, storedOr_eq_preference]

theorem resetApp_fields (w : World) (p : Page) :
    (resetApp w p).state = { isProcessing := false, uploadedFile := none } ∧
    (resetApp w p).apiKey = inputValue (storedOr p.localStorage (js "slidecraft_api_key") (js "")) ∧
    (resetApp w p).llmProvider = selectValue w.providerOptions
      (storedOr p.localStorage (js "slidecraft_provider") (js "openai")) := by
  simp [resetApp, loadSettings, updateUI, formReset]

theorem pageLoad_fields (w : World) (markup : Page) :
    (pageLoad w markup).page.state = { isProcessing := false, uploadedFile := none } ∧
    (pageLoad w markup).page.apiKey
      = inputValue (storedOr markup.localStorage (js "slidecraft_api_key") (js "")) ∧
    (pageLoad w markup).page.llmProvider = selectValue w.providerOptions
      (storedOr markup.localStorage (js "slidecraft_provider") (js "openai")) := by
  simp [pageLoad, loadSettings, updateUI]

theorem resetApp_idempotent (w : World) (p : Page) : resetApp w (resetApp w p) = resetApp w p := by
  cases hb : p.btnText <;>
    simp [resetApp, loadSettings, updateUI, formReset, hb]

theorem slideOf_record (v : JSVal) (title content : Option JSString)
    (h : IsSlideRecord v title content) : slideOf v = some (specSlide title content) := by
  obtain ⟨props, hv, ht, hc⟩ := h
  subst hv
  simp only [slideOf, JSVal.get, Key.toJSString, ht, hc, Option.some_bind, specSlide]
  have hemp : js "" = [] := rfl
  cases title with
  | none =>
    cases content with
    | none => simp [JSVal.or, JSVal.truthy, hemp, titleOptions, bodyOptions]
    | some c => cases c <;> simp [JSVal.or, JSVal.truthy, hemp, titleOptions, bodyOptions]
  | some t =>
    cases content with
    | none => cases t <;> simp [JSVal.or, JSVal.truthy, hemp, titleOptions, bodyOptions]
    | some c => cases t <;> cases c <;> simp [JSVal.or, JSVal.truthy, hemp, titleOptions, bodyOptions]

theorem addSlides_records (vals : List JSVal) (records : List (Option JSString × Option JSString))
    (h : List.Forall₂ (fun v r => IsSlideRecord v r.1 r.2) vals records) (pptx : Deck) :
    addSlides vals pptx
      = some { pptx with slides := pptx.slides ++ records.map fun r => specSlide r.1 r.2 } := by
  induction h generalizing pptx with
  | nil => simp [addSlides]
  | cons hrec _ ih =>
    simp only [addSlides, slideOf_record _ _ _ hrec, Option.some_bind, ih]
    simp

/-! ## Claims -/

/-- C1: for each of the three provider tags and every envelope carrying a
generated text at that provider's path, when the text reads
`pre ++ "[" ++ mid ++ "]" ++ post` with no `[` in `pre` and no `]` in `post`
(its first `[` comes before its last `]`), `parseAPIResponse` returns exactly
`"[" ++ mid ++ "]"`, the substring from the first `[` to the last `]`
inclusive. -/
theorem parseAPIResponse_extracts (data : JSVal) (provider : JSString) (path : List Key)
    (pre mid post : JSString) (hprov : (provider, path) ∈ providerPaths)
    (hpath : data.path path = some (.str (pre ++ lbracket :: (mid ++ rbracket :: post))))
    (hpre : lbracket ∉ pre) (hpost : rbracket ∉ post) :
    parseAPIResponse data provider = .ok (lbracket :: (mid ++ [rbracket])) := by
  rw [parseAPIResponse_of_path data provider path _ hprov hpath,
    extract_paired pre mid post hpre hpost]

/-- C1 at the spec's example text, for the three providers: the result is
`[{"title":"A","content":"x"}]`. -/
theorem parseAPIResponse_extracts_witness :
    parseAPIResponse (openaiEnvelope exampleText) openai = .ok exampleJSON ∧
    parseAPIResponse (anthropicEnvelope exampleText) anthropic = .ok exampleJSON ∧
    parseAPIResponse (googleEnvelope exampleText) google = .ok exampleJSON :=
  ⟨parseAPIResponse_extracts (openaiEnvelope exampleText) openai openaiPath
      (js "Here is the JSON: ") (js "\x7b\"title\":\"A\",\"content\":\"x\"\x7d") (js " Thanks!")
      (by simp [providerPaths]) rfl (by decide) (by decide),
   parseAPIResponse_extracts (anthropicEnvelope exampleText) anthropic anthropicPath
      (js "Here is the JSON: ") (js "\x7b\"title\":\"A\",\"content\":\"x\"\x7d") (js " Thanks!")
      (by simp [providerPaths]) rfl (by decide) (by decide),
   parseAPIResponse_extracts (googleEnvelope exampleText) google googlePath
      (js "Here is the JSON: ") (js "\x7b\"title\":\"A\",\"content\":\"x\"\x7d") (js " Thanks!")
      (by simp [providerPaths]) rfl (by decide) (by decide)⟩

/-- C2 as stated fails: on the texts `hello` (no bracket at all) and `1, 2]`
(no `[`), `parseAPIResponse` throws nothing and returns `""` and `1, 2]`. -/
theorem parseAPIResponse_returns_without_pair :
    lbracket ∉ js "hello" ∧ rbracket ∉ js "hello" ∧
    parseAPIResponse (openaiEnvelope (js "hello")) openai = .ok (js "") ∧
    parseAPIResponse (openaiEnvelope (js "hello")) openai ≠ .error parseErrorMessage ∧
    lbracket ∉ js "1, 2]" ∧
    parseAPIResponse (googleEnvelope (js "1, 2]")) google = .ok (js "1, 2]") :=
  ⟨by decide, by decide, rfl, fun h => Except.noConfusion h, by decide, rfl⟩

/-- C2, amended: for each provider and every generated text `t` with no `[` or
no `]`, `parseAPIResponse` does not fail; it returns a string with no `[`: the
empty string when `t` has neither bracket, `t` up to and including its last `]`
when only `[` is missing, and the part of `t` before its first `[` when `]` is
missing. -/
theorem parseAPIResponse_unpaired (data : JSVal) (provider : JSString) (path : List Key)
    (t : JSString) (hprov : (provider, path) ∈ providerPaths)
    (hpath : data.path path = some (.str t)) (hun : lbracket ∉ t ∨ rbracket ∉ t) :
    ∃ r, parseAPIResponse data provider = .ok r ∧ lbracket ∉ r ∧
      (lbracket ∉ t → rbracket ∉ t → r = []) ∧
      (lbracket ∉ t → ∀ a b, t = a ++ rbracket :: b → rbracket ∉ b → r = a ++ [rbracket]) ∧
      (rbracket ∉ t → ∀ pre rest, t = pre ++ lbracket :: rest → lbracket ∉ pre → r = pre) := by
  refine ⟨_, parseAPIResponse_of_path data provider path t hprov hpath, ?_, ?_, ?_, ?_⟩
  · rcases extract_shape t with ⟨pre, mid, post, ht, _, _, _⟩ | h
    · exfalso
      rcases hun with h | h <;> exact h (by rw [ht]; simp)
    · exact h
  · intro hl hr
    rw [indexOf_not_mem _ _ hl, lastIndexOf_not_mem _ _ hr]
    simp [substring]
  · intro hl a b ht hb
    rw [indexOf_not_mem _ _ hl, ht, lastIndexOf_append _ _ _ hb]
    have h0 : substring (a ++ rbracket :: b) (-1) ((a.length : Int) + 1)
        = substring (a ++ rbracket :: b) ((0 : Nat) : Int) ((a.length + 1 : Nat) : Int) := by
      simp only [substring]
      have e1 : max (-1 : Int) 0 = max (((0 : Nat) : Int)) 0 := by simp
      rw [e1]
      push_cast
      rfl
    rw [h0, substring_of_le _ _ _ (Nat.zero_le _) (by simp)]
    have : a ++ rbracket :: b = (a ++ [rbracket]) ++ b := by simp
    rw [List.drop_zero, Nat.sub_zero, this, List.take_left']
    simp
  · intro hr pre rest ht hpre
    rw [lastIndexOf_not_mem _ _ hr, ht, indexOf_append _ _ _ hpre]
    have hlen : pre.length ≤ (pre ++ lbracket :: rest).length := by simp
    simp only [substring]
    have e1 : min (max (pre.length : Int) 0) ((pre ++ lbracket :: rest).length : Int)
        = (pre.length : Int) := by omega
    have e2 : min (max ((-1 : Int) + 1) 0) ((pre ++ lbracket :: rest).length : Int) = 0 := by
      omega
    rw [e1, e2]
    have e3 : min (pre.length : Int) 0 = 0 := by omega
    have e4 : max (pre.length : Int) 0 = (pre.length : Int) := by omega
    rw [e3, e4]
    simp

/-- C2 amended, at the text `see [draft` under the Anthropic envelope: the
result is `see `. -/
theorem parseAPIResponse_unpaired_witness :
    ∃ r, parseAPIResponse (anthropicEnvelope (js "see [draft")) anthropic = .ok r ∧
      lbracket ∉ r ∧
      (lbracket ∉ js "see [draft" → rbracket ∉ js "see [draft" → r = []) ∧
      (lbracket ∉ js "see [draft" →
        ∀ a b, js "see [draft" = a ++ rbracket :: b → rbracket ∉ b → r = a ++ [rbracket]) ∧
      (rbracket ∉ js "see [draft" →
        ∀ pre rest, js "see [draft" = pre ++ lbracket :: rest → lbracket ∉ pre → r = pre) :=
  parseAPIResponse_unpaired (anthropicEnvelope (js "see [draft")) anthropic anthropicPath
    (js "see [draft") (by simp [providerPaths]) rfl (Or.inr (by decide))

/-- C10: whenever `parseAPIResponse` returns a string `r`, it was cut from a
generated text `t` at the provider's path, and either `r` begins with `[` and
ends with `]`, or `r` contains no `[` at all and so never decodes to an array
(the decoder yielding arrays only from texts with a `[`); the second case is
the one met whenever no `[` of `t` is followed by a `]`, that is when `[` is
missing, `]` is missing, or the last `]` precedes the first `[`. -/
theorem parseAPIResponse_shape (w : World) (hw : ArraysNeedBracket w) (data : JSVal)
    (provider r : JSString) (h : parseAPIResponse data provider = .ok r) :
    ∃ path t, (provider, path) ∈ providerPaths ∧ data.path path = some (.str t) ∧
      ((r.head? = some lbracket ∧ r.getLast? = some rbracket) ∨
        (lbracket ∉ r ∧ ∀ xs, w.jsonParse r ≠ .ok (.arr xs))) ∧
      ((¬ ∃ pre mid post, t = pre ++ lbracket :: (mid ++ rbracket :: post)) → lbracket ∉ r) := by
  obtain ⟨path, t, hprov, hpath, hr⟩ := parseAPIResponse_ok_inv data provider r h
  refine ⟨path, t, hprov, hpath, ?_, ?_⟩
  · rcases extract_shape t with ⟨pre, mid, post, _, _, _, hs⟩ | hn
    · left
      rw [hr, hs]
      refine ⟨rfl, ?_⟩
      rw [← List.cons_append, List.getLast?_append]
      rfl
    · right
      rw [hr]
      exact ⟨hn, fun xs hx => hn (hw _ xs hx)⟩
  · intro hno
    rcases extract_shape t with ⟨pre, mid, post, ht, _, _, _⟩ | hn
    · exact absurd ⟨pre, mid, post, ht⟩ hno
    · rw [hr]; exact hn

/-- C10 at the mis-ordered text `a]b[c`: the result is `b`. -/
theorem parseAPIResponse_shape_witness :
    ∃ path t, (openai, path) ∈ providerPaths ∧
      (openaiEnvelope (js "a]b[c")).path path = some (.str t) ∧
      (((js "b").head? = some lbracket ∧ (js "b").getLast? = some rbracket) ∨
        (lbracket ∉ js "b" ∧ ∀ xs, (exampleWorld (js "") .null).jsonParse (js "b") ≠ .ok (.arr xs))) ∧
      ((¬ ∃ pre mid post, t = pre ++ lbracket :: (mid ++ rbracket :: post)) →
        lbracket ∉ js "b") :=
  parseAPIResponse_shape (exampleWorld (js "") .null) (exampleWorld_arraysNeedBracket (js ""))
    (openaiEnvelope (js "a]b[c")) openai (js "b") rfl

/-- C3: for every supported provider, when the response to the request
`callLLM` dispatches is not successful (`response.ok` false), `callLLM` fails,
returning no decoded body, with the error message
`API Error (<status>): <body>`, where `<status>` is the decimal numeral of the
status code and `<body>` the raw response body text; the message contains
both. -/
theorem callLLM_unsuccessful_status (w : World) (text provider key : JSString)
    (response : Response) (hprov : provider ∈ [openai, anthropic, google])
    (hfetch : ∀ request, callLLMRequest text provider key = .ok request →
      w.fetch request = .ok response)
    (hok : response.ok = false) :
    ∃ digits message, IsDecimalNumeral digits response.status ∧
      callLLM w text provider key = .error message ∧
      message = js "API Error (" ++ digits ++ js "): " ++ response.body ∧
      digits <:+: message ∧ response.body <:+: message := by
  obtain ⟨request, hreq⟩ := callLLMRequest_supported text provider key hprov
  refine ⟨numToString response.status, apiErrorMessage response.status response.body,
    numToString_decimal response.status, ?_, rfl, ?_, ?_⟩
  · simp [callLLM, hreq, hfetch request hreq, callLLMResponse, hok]
  · exact ⟨js "API Error (", js "): " ++ response.body, by simp [apiErrorMessage]⟩
  · exact ⟨js "API Error (" ++ numToString response.status ++ js "): ", [],
      by simp [apiErrorMessage]⟩

/-- C3 at status 401 with body `unauthorized`, and at status 500 with body
`boom`: the messages are `API Error (401): unauthorized` and
`API Error (500): boom`. -/
theorem callLLM_unsuccessful_status_witness :
    (∃ digits message, IsDecimalNumeral digits 401 ∧
      callLLM unauthorizedWorld (js "Quarterly results") anthropic (js "sk-test")
        = .error message ∧
      message = js "API Error (" ++ digits ++ js "): " ++ js "unauthorized" ∧
      digits <:+: message ∧ js "unauthorized" <:+: message) ∧
    callLLM unauthorizedWorld (js "Quarterly results") anthropic (js "sk-test")
      = .error (js "API Error (401): unauthorized") ∧
    js "401" <:+: js "API Error (401): unauthorized" ∧
    js "unauthorized" <:+: js "API Error (401): unauthorized" ∧
    callLLM serverErrorWorld (js "Quarterly results") google (js "sk-test")
      = .error (js "API Error (500): boom") :=
  ⟨callLLM_unsuccessful_status unauthorizedWorld (js "Quarterly results") anthropic (js "sk-test")
      { ok := false, status := 401, body := js "unauthorized" } (by simp) (fun _ _ => rfl) rfl,
   rfl, ⟨js "API Error (", js "): unauthorized", rfl⟩, ⟨js "API Error (401): ", [], rfl⟩, rfl⟩

/-- C9: a submission that passes the `isProcessing` guard always ends, whatever
the network, the decoder and the save do, with `state.isProcessing` false, the
attached file untouched, a status list of exactly one terminal line (the
success line with the count summary, or the error line with `Error: ` and the
message), and the result area and result display shown with a clickable
start-over button. -/
theorem handleSubmit_ends_actionable (w : World) (e : Event) (p : Page)
    (h : p.state.isProcessing = false) :
    (handleSubmit w e p).2.state.isProcessing = false ∧
    (handleSubmit w e p).2.state.uploadedFile = p.state.uploadedFile ∧
    (handleSubmit w e p).2.resultAreaDisplay = js "block" ∧
    (handleSubmit w e p).2.resultDisplayDisplay = js "block" ∧
    ((∃ n, (handleSubmit w e p).2.statusDisplay = [successLine] ∧
        (handleSubmit w e p).2.resultDisplay = successPanel n) ∨
     (∃ m, (handleSubmit w e p).2.statusDisplay = [errorLine] ∧
        (handleSubmit w e p).2.resultDisplay = errorPanel m)) ∧
    (∃ item, (handleSubmit w e p).2.statusDisplay = [item] ∧ item.terminal) ∧
    startOverBtn ∈ (handleSubmit w e p).2.resultDisplay ∧
    startOverClickable (handleSubmit w e p).2 = true := by
  have hrun : (handleSubmit w e p).2 = submitEnd w (submitTry w (submitStart w p)) := by
    simp [handleSubmit, h]
  obtain ⟨t1, t2, _, t4⟩ := submitTry_spec w (submitStart w p)
  obtain ⟨s1, s2, _⟩ := submitStart_spec w p
  have key : (handleSubmit w e p).2.state.isProcessing = false ∧
      (handleSubmit w e p).2.state.uploadedFile = p.state.uploadedFile ∧
      (handleSubmit w e p).2.resultAreaDisplay = js "block" ∧
      (handleSubmit w e p).2.resultDisplayDisplay = js "block" ∧
      ((∃ n, (handleSubmit w e p).2.statusDisplay = [successLine] ∧
          (handleSubmit w e p).2.resultDisplay = successPanel n) ∨
       (∃ m, (handleSubmit w e p).2.statusDisplay = [errorLine] ∧
          (handleSubmit w e p).2.resultDisplay = errorPanel m)) := by
    rw [hrun]
    cases hout : submitTry w (submitStart w p) with
    | mk q r =>
      rw [hout] at t1 t2 t4
      simp only at t1 t2 t4
      cases r with
      | error m =>
        obtain ⟨e1, e2, e3, e4, e5, _⟩ := submitEnd_error w q m
        refine ⟨by rw [e1], by rw [e1, t1, s1], by rw [e2, t2, s2], e3, Or.inr ⟨m, e4, e5⟩⟩
      | ok u =>
        obtain ⟨e1, e2, e3, e4, e5, _⟩ := submitEnd_ok w q u
        obtain ⟨n, o1, o2, o3⟩ := t4 u rfl
        refine ⟨by rw [e1], by rw [e1, t1, s1], by rw [e2, t2, s2], by rw [e3, o3],
          Or.inl ⟨n, by rw [e4, o1], by rw [e5, o2]⟩⟩
  obtain ⟨k1, k2, k3, k4, k5⟩ := key
  have hbtn : startOverBtn ∈ (handleSubmit w e p).2.resultDisplay := by
    rcases k5 with ⟨n, _, hr⟩ | ⟨m, _, hr⟩ <;> rw [hr] <;> simp [successPanel, errorPanel]
  refine ⟨k1, k2, k3, k4, k5, ?_, hbtn, startOverBtn_clickable _ k3 k4 hbtn⟩
  rcases k5 with ⟨n, hs, _⟩ | ⟨m, hs, _⟩
  · exact ⟨successLine, hs, Or.inl rfl⟩
  · exact ⟨errorLine, hs, Or.inr rfl⟩

set_option maxRecDepth 8192 in
/-- C4: when the submission passes the guard, the model call and the extraction
succeed, and the extracted text decodes to a value that is an empty array or
not an array, `handleSubmit` fails with `AI returned no slide data.`: the only
outward calls of the run are the one request and the diagnostic log of that
error (no presentation is created, no save requested), the status lines
rendered by the `try` block are the two of the first two stages (no `Building`
line), and the run ends with the error line and a shown result display whose
summary paragraph has the text `Error: AI returned no slide data.`, followed
by the start-over button. -/
theorem handleSubmit_no_slide_data (w : World) (e : Event) (p : Page) (apiResponse : JSVal)
    (jsonString : JSString) (v : JSVal) (h : p.state.isProcessing = false)
    (hllm : callLLM w p.userText p.llmProvider p.apiKey = .ok apiResponse)
    (hparse : parseAPIResponse apiResponse p.llmProvider = .ok jsonString)
    (hdecode : w.jsonParse jsonString = .ok v) (hv : ∀ xs, v = .arr xs → xs = []) :
    (submitTry w (submitStart w p)).2 = .error (js "AI returned no slide data.") ∧
    (submitTry w (submitStart w p)).1.statusDisplay =
      [{ className := js "status-item pending"
         innerHTML := js "<i class=\"icon fas fa-spinner\"></i><span>Calling AI to structure content...</span>" },
       { className := js "status-item pending"
         innerHTML := js "<i class=\"icon fas fa-spinner\"></i><span>Parsing AI response...</span>" }] ∧
    (∃ request, (handleSubmit w e p).2.effects =
      p.effects ++ [.fetch request,
        .consoleError (js "Generation Failed:") (js "AI returned no slide data.")]) ∧
    (handleSubmit w e p).2.statusDisplay =
      [{ className := js "status-item error"
         innerHTML := js "<i class=\"icon fas fa-exclamation-triangle\"></i><span>An error occurred during generation.</span>" }] ∧
    (handleSubmit w e p).2.resultDisplay =
      [{ tagName := js "p", id := js "result-summary",
         textContent := js "Error: AI returned no slide data.",
         styleColor := js "var(--error-color)" },
       { tagName := js "button", id := js "start-over-btn", className := js "btn",
         innerHTML := js "<i class=\"fas fa-redo\"></i> <span>Start Over</span>",
         onclick := some .resetApp }] ∧
    (handleSubmit w e p).2.resultDisplayDisplay = js "block" ∧
    (handleSubmit w e p).2.resultAreaDisplay = js "block" := by
  obtain ⟨request, hreq, hresp⟩ := callLLM_ok_inv w _ _ _ _ hllm
  obtain ⟨_, s2, _, _, _, s6, s7, s8, s9⟩ := submitStart_spec w p
  have htry := submitTry_no_slide_data w (submitStart w p) request apiResponse jsonString v
    (by rw [s6, s7, s8]; exact hreq) hresp (by rw [s7]; exact hparse) hdecode hv
  have hrun : (handleSubmit w e p).2 = submitEnd w (submitTry w (submitStart w p)) := by
    simp [handleSubmit, h]
  have hstatus : (submitTry w (submitStart w p)).1.statusDisplay =
      [statusItem (js "Calling AI to structure content...") (js "pending"),
       statusItem (js "Parsing AI response...") (js "pending")] := by
    rw [htry]
    simp [submitStart, updateUI]
  refine ⟨by rw [htry]; rfl, hstatus.trans rfl, ?_⟩
  rw [hrun, htry]
  obtain ⟨_, e2, e3, e4, e5, _, e7⟩ := submitEnd_error w
    { submitStart w p with
      statusDisplay := (submitStart w p).statusDisplay ++
        [statusItem (js "Calling AI to structure content...") (js "pending"),
         statusItem (js "Parsing AI response...") (js "pending")]
      effects := (submitStart w p).effects ++ [.fetch request] } noSlideDataMessage
  refine ⟨⟨request, ?_⟩, e4.trans rfl, e5.trans rfl, e3, ?_⟩
  · rw [e7, s9]
    simp
    rfl
  · rw [e2]
    exact s2

/-- C4 on the example page, the model answering `Sure: [] done`. -/
theorem handleSubmit_no_slide_data_witness :
    (submitTry emptyArrayWorld (submitStart emptyArrayWorld examplePage)).2
      = .error (js "AI returned no slide data.") ∧
    (submitTry emptyArrayWorld (submitStart emptyArrayWorld examplePage)).1.statusDisplay =
      [{ className := js "status-item pending"
         innerHTML := js "<i class=\"icon fas fa-spinner\"></i><span>Calling AI to structure content...</span>" },
       { className := js "status-item pending"
         innerHTML := js "<i class=\"icon fas fa-spinner\"></i><span>Parsing AI response...</span>" }] ∧
    (∃ request, (handleSubmit emptyArrayWorld submitEvent examplePage).2.effects =
      examplePage.effects ++ [.fetch request,
        .consoleError (js "Generation Failed:") (js "AI returned no slide data.")]) ∧
    (handleSubmit emptyArrayWorld submitEvent examplePage).2.statusDisplay =
      [{ className := js "status-item error"
         innerHTML := js "<i class=\"icon fas fa-exclamation-triangle\"></i><span>An error occurred during generation.</span>" }] ∧
    (handleSubmit emptyArrayWorld submitEvent examplePage).2.resultDisplay =
      [{ tagName := js "p", id := js "result-summary",
         textContent := js "Error: AI returned no slide data.",
         styleColor := js "var(--error-color)" },
       { tagName := js "button", id := js "start-over-btn", className := js "btn",
         innerHTML := js "<i class=\"fas fa-redo\"></i> <span>Start Over</span>",
         onclick := some .resetApp }] ∧
    (handleSubmit emptyArrayWorld submitEvent examplePage).2.resultDisplayDisplay = js "block" ∧
    (handleSubmit emptyArrayWorld submitEvent examplePage).2.resultAreaDisplay = js "block" :=
  handleSubmit_no_slide_data emptyArrayWorld submitEvent examplePage
    (openaiEnvelope (js "Sure: [] done")) (js "[]") (.arr []) rfl rfl rfl rfl
    (fun xs hx => by cases hx; rfl)

/-- C9 on the example page, once with a run that succeeds and once with a run
that the network refuses. -/
theorem handleSubmit_ends_actionable_witness :
    ((handleSubmit slidesWorld submitEvent examplePage).2.state.isProcessing = false ∧
     (handleSubmit slidesWorld submitEvent examplePage).2.statusDisplay = [successLine] ∧
     (handleSubmit slidesWorld submitEvent examplePage).2.resultDisplay = successPanel 1 ∧
     startOverClickable (handleSubmit slidesWorld submitEvent examplePage).2 = true) ∧
    ((handleSubmit unauthorizedWorld submitEvent examplePage).2.state.isProcessing = false ∧
     (handleSubmit unauthorizedWorld submitEvent examplePage).2.statusDisplay = [errorLine] ∧
     (handleSubmit unauthorizedWorld submitEvent examplePage).2.resultDisplay
       = errorPanel (js "API Error (401): unauthorized") ∧
     startOverClickable (handleSubmit unauthorizedWorld submitEvent examplePage).2 = true) :=
  ⟨⟨(handleSubmit_ends_actionable slidesWorld submitEvent examplePage rfl).1, rfl, rfl,
      (handleSubmit_ends_actionable slidesWorld submitEvent examplePage rfl).2.2.2.2.2.2.2⟩,
   ⟨(handleSubmit_ends_actionable unauthorizedWorld submitEvent examplePage rfl).1, rfl, rfl,
      (handleSubmit_ends_actionable unauthorizedWorld submitEvent examplePage rfl).2.2.2.2.2.2.2⟩⟩

/-- C5: `handleFile` accepts a file exactly when its name ends, case-sensitively,
with `.pptx` or `.potx`: it then sets `state.uploadedFile` to it, leaves
`isProcessing` alone and raises no alert.  For every other argument (a file
with another name, or no file) it raises the alert, clears the file-input
selection, and leaves the session state (`isProcessing` and the file attached
before) unchanged. -/
theorem handleFile_accepts_by_suffix (w : World) (p : Page) (file : Option File) :
    (∀ f, file = some f → HasAcceptedSuffix f.name →
      (handleFile w file p).state = { p.state with uploadedFile := some f } ∧
      (handleFile w file p).effects = p.effects) ∧
    ((∀ f, file = some f → ¬ HasAcceptedSuffix f.name) →
      (handleFile w file p).state = p.state ∧
      (handleFile w file p).effects = p.effects ++ [.alert invalidFileMessage] ∧
      (handleFile w file p).fileInputValue = js "") := by
  constructor
  · intro f hf hacc
    subst hf
    have := (hasAcceptedSuffix_iff f.name).mp hacc
    simp [handleFile, this, updateUI]
  · intro hrej
    cases file with
    | none => simp [handleFile, updateUI]
    | some f =>
      have : (endsWith f.name (js ".pptx") || endsWith f.name (js ".potx")) = false := by
        cases hb : (endsWith f.name (js ".pptx") || endsWith f.name (js ".potx")) with
        | false => rfl
        | true => exact absurd ((hasAcceptedSuffix_iff f.name).mpr hb) (hrej f rfl)
      simp [handleFile, this, updateUI]

/-- C5 on the example page: `deck.pptx` and `template.potx` are accepted;
`deck.pdf`, `DECK.PPTX` and an empty selection are rejected and leave the file
attached before in place. -/
theorem handleFile_accepts_by_suffix_witness :
    (handleFile slidesWorld (some { name := js "deck.pptx" }) examplePage).state.uploadedFile.map
        File.name = some (js "deck.pptx") ∧
    (handleFile slidesWorld (some { name := js "template.potx" }) examplePage).state
      = { examplePage.state with uploadedFile := some { name := js "template.potx" } } ∧
    (handleFile slidesWorld (some { name := js "deck.pdf" }) examplePage).state
      = examplePage.state ∧
    (handleFile slidesWorld (some { name := js "deck.pdf" }) examplePage).effects
      = [.alert invalidFileMessage] ∧
    (handleFile slidesWorld (some { name := js "DECK.PPTX" }) examplePage).state
      = examplePage.state ∧
    (handleFile slidesWorld none examplePage).state = examplePage.state ∧
    (handleFile slidesWorld none examplePage).fileInputValue = js "" :=
  ⟨by
      rw [((handleFile_accepts_by_suffix slidesWorld examplePage
        (some { name := js "deck.pptx" })).1 _ rfl ⟨js "deck", Or.inl rfl⟩).1]
      rfl,
   ((handleFile_accepts_by_suffix slidesWorld examplePage
      (some { name := js "template.potx" })).1 _ rfl ⟨js "template", Or.inr rfl⟩).1,
   ((handleFile_accepts_by_suffix slidesWorld examplePage (some { name := js "deck.pdf" })).2
      (fun f hf => by
        cases hf
        exact fun h => absurd ((hasAcceptedSuffix_iff _).mp h) (by decide))).1,
   ((handleFile_accepts_by_suffix slidesWorld examplePage (some { name := js "deck.pdf" })).2
      (fun f hf => by
        cases hf
        exact fun h => absurd ((hasAcceptedSuffix_iff _).mp h) (by decide))).2.1,
   ((handleFile_accepts_by_suffix slidesWorld examplePage (some { name := js "DECK.PPTX" })).2
      (fun f hf => by
        cases hf
        exact fun h => absurd ((hasAcceptedSuffix_iff _).mp h) (by decide))).1,
   ((handleFile_accepts_by_suffix slidesWorld examplePage none).2
      (fun f hf => by cases hf)).1,
   ((handleFile_accepts_by_suffix slidesWorld examplePage none).2
      (fun f hf => by cases hf)).2.2⟩

/-- C6: while `state.isProcessing` is true a call of `handleSubmit` only marks
the event as default-prevented: the page comes back unchanged (session state,
status list, result panel, and the log of outward calls, so no network
request), and in the event system no run is added to those in flight.  Hence,
from page load on, whatever the user and the network do, at most one run of
`handleSubmit` is in flight. -/
theorem handleSubmit_guard (w : World) (e : Event) (p : Page) (pending : List Pending)
    (h : p.state.isProcessing = true) :
    handleSubmit w e p = ({ defaultPrevented := true }, p) ∧
    step w { page := p, pending := pending } .submit = { page := p, pending := pending } ∧
    (∀ markup actions, (run w (pageLoad w markup) actions).pending.length ≤ 1) := by
  refine ⟨by simp [handleSubmit, h], by simp [step, h], fun markup actions => ?_⟩
  exact (run_inv w _ actions (pageLoad_inv w markup)).1

/-- C6 on the example page with one run in flight: a second submission changes
nothing. -/
theorem handleSubmit_guard_witness :
    busySys.pending.length = 1 ∧
    handleSubmit slidesWorld submitEvent busySys.page = ({ defaultPrevented := true }, busySys.page) ∧
    step slidesWorld { page := busySys.page, pending := busySys.pending } .submit
      = { page := busySys.page, pending := busySys.pending } ∧
    (∀ markup actions, (run slidesWorld (pageLoad slidesWorld markup) actions).pending.length ≤ 1) :=
  ⟨rfl, handleSubmit_guard slidesWorld submitEvent busySys.page busySys.pending rfl⟩

/-- C7: `resetApp` applied to the page a submission leaves behind, whether the
submission ended in success or in error, yields the initial UI state: empty
status list, hidden result area, empty result display, no uploaded file,
`isProcessing` false, and credential and provider fields reloaded from the
preference store.  So two such pages with the same stored preferences are
reset to the same UI state, the session state and the two fields are those of
a fresh page load over the same store, and `resetApp` applied twice gives the
page that applying it once gives.  Reloaded means: the credential field holds
the stored key (the empty string when none is stored; a single-line input
holds no line break), and the provider
selector holds the stored provider when it is one of its options, `openai`
when none is stored, and nothing when the stored provider is no option. -/
theorem resetApp_restores_initial (w w1 w2 : World) (e1 e2 : Event) (p q markup : Page)
    (hstore : p.localStorage = q.localStorage) (hmarkup : markup.localStorage = p.localStorage) :
    (resetApp w (handleSubmit w1 e1 p).2).ui = initialUI w p.localStorage ∧
    (resetApp w (handleSubmit w1 e1 p).2).ui = (resetApp w (handleSubmit w2 e2 q).2).ui ∧
    (resetApp w p).ui = initialUI w p.localStorage ∧
    resetApp w (resetApp w p) = resetApp w p ∧
    ((resetApp w p).statusDisplay = [] ∧ (resetApp w p).resultAreaDisplay = js "none" ∧
      (resetApp w p).resultDisplay = [] ∧ (resetApp w p).state.uploadedFile = none ∧
      (resetApp w p).state.isProcessing = false ∧ (resetApp w p).userText = w.defaultUserText ∧
      (resetApp w p).fileInputValue = [] ∧ (resetApp w p).fileInfoDisplay = js "none" ∧
      (resetApp w p).fileDropZoneDisplay = js "block" ∧
      (resetApp w p).generateBtnDisabled = true) ∧
    ((resetApp w p).state = (pageLoad w markup).page.state ∧
      (resetApp w p).apiKey = (pageLoad w markup).page.apiKey ∧
      (resetApp w p).llmProvider = (pageLoad w markup).page.llmProvider) ∧
    (∀ v, p.localStorage.lookup (js "slidecraft_api_key") = some v → v ≠ [] → 10 ∉ v → 13 ∉ v →
      (resetApp w p).apiKey = v) ∧
    ((p.localStorage.lookup (js "slidecraft_api_key") = none ∨
        p.localStorage.lookup (js "slidecraft_api_key") = some []) →
      (resetApp w p).apiKey = []) ∧
    (10 ∉ (resetApp w p).apiKey ∧ 13 ∉ (resetApp w p).apiKey) ∧
    (∀ v, p.localStorage.lookup (js "slidecraft_provider") = some v → v ≠ [] →
      v ∈ w.providerOptions → (resetApp w p).llmProvider = v) ∧
    (∀ v, p.localStorage.lookup (js "slidecraft_provider") = some v → v ≠ [] →
      v ∉ w.providerOptions → (resetApp w p).llmProvider = []) ∧
    ((p.localStorage.lookup (js "slidecraft_provider") = none ∨
        p.localStorage.lookup (js "slidecraft_provider") = some []) →
      js "openai" ∈ w.providerOptions → (resetApp w p).llmProvider = js "openai") := by
  obtain ⟨f1, f2, f3⟩ := resetApp_fields w p
  obtain ⟨g1, g2, g3⟩ := pageLoad_fields w markup
  refine ⟨?_, ?_, resetApp_ui w p, resetApp_idempotent w p, ?_, ?_, ?_, ?_, ?_, ?_, ?_, ?_⟩
  · rw [resetApp_ui, handleSubmit_localStorage]
  · rw [resetApp_ui, resetApp_ui, handleSubmit_localStorage, handleSubmit_localStorage, hstore]
  · simp [resetApp, loadSettings, updateUI, formReset]
    rfl
  · rw [hmarkup] at g2 g3
    exact ⟨f1.trans g1.symm, f2.trans g2.symm, f3.trans g3.symm⟩
  · intro v hv hne h10 h13
    rw [f2, storedOr_of_lookup _ _ _ v hv hne, inputValue_of_no_break v h10 h13]
  · intro hmiss
    rw [f2, storedOr_of_missing _ _ _ hmiss]
    rfl
  · rw [f2]
    simp [inputValue, List.mem_filter]
  · intro v hv hne hmem
    rw [f3, storedOr_of_lookup _ _ _ v hv hne]
    simp [selectValue, hmem]
  · intro v hv hne hmem
    rw [f3, storedOr_of_lookup _ _ _ v hv hne]
    simp [selectValue, hmem]
    rfl
  · intro hmiss hmem
    rw [f3, storedOr_of_missing _ _ _ hmiss]
    simp [selectValue, hmem]

/-- C7 on a page whose store holds `sk-live` and `anthropic` while its fields
hold `sk-test` and `openai`, after a run that succeeds and after a run that the
network refuses; and on a page whose store holds a provider that is no option. -/
theorem resetApp_restores_initial_witness :
    (resetApp slidesWorld (handleSubmit slidesWorld submitEvent stalePage).2).ui
      = (resetApp slidesWorld (handleSubmit unauthorizedWorld submitEvent stalePage).2).ui ∧
    resetApp slidesWorld (resetApp slidesWorld stalePage) = resetApp slidesWorld stalePage ∧
    (resetApp slidesWorld stalePage).apiKey = js "sk-live" ∧
    (resetApp slidesWorld stalePage).llmProvider = js "anthropic" ∧
    (resetApp slidesWorld foreignPage).llmProvider = js "" ∧
    (resetApp slidesWorld (handleSubmit slidesWorld submitEvent stalePage).2).ui.apiKey
      = js "sk-live" ∧
    (resetApp slidesWorld (handleSubmit unauthorizedWorld submitEvent stalePage).2).ui.llmProvider
      = js "anthropic" :=
  ⟨(resetApp_restores_initial slidesWorld slidesWorld unauthorizedWorld submitEvent submitEvent
      stalePage stalePage stalePage rfl rfl).2.1,
   (resetApp_restores_initial slidesWorld slidesWorld unauthorizedWorld submitEvent submitEvent
      stalePage stalePage stalePage rfl rfl).2.2.2.1,
   (resetApp_restores_initial slidesWorld slidesWorld unauthorizedWorld submitEvent submitEvent
      stalePage stalePage stalePage rfl rfl).2.2.2.2.2.2.1 (js "sk-live") rfl (by decide)
      (by decide) (by decide),
   (resetApp_restores_initial slidesWorld slidesWorld unauthorizedWorld submitEvent submitEvent
      stalePage stalePage stalePage rfl rfl).2.2.2.2.2.2.2.2.2.1 (js "anthropic") rfl (by decide)
      (by decide),
   (resetApp_restores_initial slidesWorld slidesWorld unauthorizedWorld submitEvent submitEvent
      foreignPage foreignPage foreignPage rfl rfl).2.2.2.2.2.2.2.2.2.2.1 (js "mistral") rfl
      (by decide) (by decide),
   rfl, rfl⟩

/-- C8: for every non-empty array of Slide Records `generatePresentation`
creates one deck with the layout `LAYOUT_WIDE` and exactly one slide per
record, in array order, each made of a title block holding the title (or
`Untitled Slide` when the title is empty or missing) and a body block, with
`bullet: true` in its options, holding the content (or the empty string); it
requests exactly one save, of that deck under `SlideCraft_Presentation.pptx`,
and its outcome is that of the save: an empty or missing title or content
raises no error. -/
theorem generatePresentation_slide_per_record (w : World) (p : Page) (vals : List JSVal)
    (records : List (Option JSString × Option JSString)) (hne : vals ≠ [])
    (hrec : List.Forall₂ (fun v r => IsSlideRecord v r.1 r.2) vals records) :
    generatePresentation w (.arr vals) p =
      ({ p with effects := p.effects ++
          [.newPptx,
           .writeFile { layout := js "LAYOUT_WIDE"
                        slides := records.map fun r => specSlide r.1 r.2 }
             (js "SlideCraft_Presentation.pptx")] },
       w.writeFile { layout := js "LAYOUT_WIDE", slides := records.map fun r => specSlide r.1 r.2 }
         (js "SlideCraft_Presentation.pptx")) ∧
    (records.map fun r => specSlide r.1 r.2).length = vals.length ∧ 0 < vals.length ∧
    (∀ s ∈ records.map fun r => specSlide r.1 r.2,
      ∃ title body, s.blocks = [title, body] ∧ body.bulleted ∧ ¬ title.bulleted) := by
  refine ⟨?_, ?_, List.length_pos.mpr hne, ?_⟩
  · simp only [generatePresentation, generatePresentationBuild, addSlides_records vals records hrec]
    simp only [List.nil_append, List.append_assoc, List.singleton_append]
    rfl
  · rw [List.length_map]
    exact hrec.length_eq.symm
  · intro s hs
    obtain ⟨r, _, hr⟩ := List.mem_map.mp hs
    subst hr
    refine ⟨_, _, rfl, ⟨_, rfl, rfl⟩, ?_⟩
    rintro ⟨props, h1, h2⟩
    simp only [JSVal.obj.injEq] at h1
    subst h1
    have h3 : (none : Option JSVal) = some (.bool true) := h2
    cases h3

/-- C8 on two records, the second with an empty title and no content: two
slides, the second titled `Untitled Slide` with an empty body, both bodies
bulleted, one save. -/
theorem generatePresentation_slide_per_record_witness :
    (generatePresentation slidesWorld
        (.arr [.obj [(js "title", .str (js "A")), (js "content", .str (js "x"))],
               .obj [(js "title", .str (js ""))]]) examplePage =
      ({ examplePage with effects := examplePage.effects ++
          [.newPptx,
           .writeFile { layout := js "LAYOUT_WIDE"
                        slides := [(some (js "A"), some (js "x")), (some (js ""), none)].map
                          fun r => specSlide r.1 r.2 }
             (js "SlideCraft_Presentation.pptx")] },
       slidesWorld.writeFile
         { layout := js "LAYOUT_WIDE"
           slides := [(some (js "A"), some (js "x")), (some (js ""), none)].map
             fun r => specSlide r.1 r.2 }
         (js "SlideCraft_Presentation.pptx")) ∧
    ([(some (js "A"), some (js "x")), (some (js ""), none)].map
      fun r => specSlide r.1 r.2).length = 2 ∧ 0 < 2 ∧
    (∀ s ∈ [(some (js "A"), some (js "x")), (some (js ""), none)].map
        fun r => specSlide r.1 r.2,
      ∃ title body, s.blocks = [title, body] ∧ body.bulleted ∧ ¬ title.bulleted)) ∧
    (generatePresentation slidesWorld
        (.arr [.obj [(js "title", .str (js "A")), (js "content", .str (js "x"))],
               .obj [(js "title", .str (js ""))]]) examplePage).1.effects =
      [.newPptx,
       .writeFile
         { layout := js "LAYOUT_WIDE"
           slides :=
             [{ blocks :=
                  [{ text := .str (js "A")
                     options :=
                       .obj [(js "x", .num (.finite (1 / 2))), (js "y", .num (.finite (1 / 4))),
                             (js "w", .str (js "90%")), (js "h", .num (.finite 1)),
                             (js "fontSize", .num (.finite 32)), (js "bold", .bool true),
                             (js "color", .str (js "363636"))] },
                   { text := .str (js "x")
                     options :=
                       .obj [(js "x", .num (.finite (1 / 2))), (js "y", .num (.finite (3 / 2))),
                             (js "w", .str (js "90%")), (js "h", .num (.finite (15 / 4))),
                             (js "fontSize", .num (.finite 18)), (js "color", .str (js "363636")),
                             (js "bullet", .bool true)] }] },
              { blocks :=
                  [{ text := .str (js "Untitled Slide")
                     options :=
                       .obj [(js "x", .num (.finite (1 / 2))), (js "y", .num (.finite (1 / 4))),
                             (js "w", .str (js "90%")), (js "h", .num (.finite 1)),
                             (js "fontSize", .num (.finite 32)), (js "bold", .bool true),
                             (js "color", .str (js "363636"))] },
                   { text := .str (js "")
                     options :=
                       .obj [(js "x", .num (.finite (1 / 2))), (js "y", .num (.finite (3 / 2))),
                             (js "w", .str (js "90%")), (js "h", .num (.finite (15 / 4))),
                             (js "fontSize", .num (.finite 18)), (js "color", .str (js "363636")),
                             (js "bullet", .bool true)] }] }] }
         (js "SlideCraft_Presentation.pptx")] :=
  ⟨generatePresentation_slide_per_record slidesWorld examplePage
    [.obj [(js "title", .str (js "A")), (js "content", .str (js "x"))],
     .obj [(js "title", .str (js ""))]]
    [(some (js "A"), some (js "x")), (some (js ""), none)] (by simp)
    (.cons ⟨_, rfl, rfl, rfl⟩ (.cons ⟨_, rfl, rfl, rfl⟩ .nil)), rfl⟩

end SlideCraft
